import Mathlib

/-!
# blksnap (backport): tracker and snapshot life cycle

A shallow embedding of `module/tracker.c` and `module/snapshot.c`.

Conventions of the embedding

* Objects that the C code reaches through pointers live in heaps
  (`List (Option _)`, the address is the position, `none` is freed memory);
  a `NULL` pointer is `none` in an `Option Nat`.
* A function of the module returns `Option _`: `none` is a memory fault
  (a `NULL` or dangling pointer dereferenced, an array read out of bounds).
* Everything the module calls but does not define (block layer, `cbt_map.c`,
  `diff_area.c`, `snapimage.c`, the filter API) is a field of `Env`.  Each
  such function sees the history of external calls made so far, so its
  answers may change from one call to the next.
* Calls with an effect outside the module are appended to the trace, oldest
  first.  Logging (`pr_info`, `pr_err`, `pr_warn`) is not recorded.
* Counts and indices (`int`, `unsigned int` in C) are natural numbers: no
  array of the module comes near `2^31` entries, so they never wrap.
* Where the source is guarded by `HAVE_SUPER_BLOCK_FREEZE`, the `#else`
  branch (`freeze_bdev`, `thaw_bdev`) is the one embedded.
-/

namespace Blksnap

/-! ## Kernel constants -/

/-- Linux `ESRCH`. -/
def ESRCH : Int := 3
/-- Linux `EAGAIN`. -/
def EAGAIN : Int := 11
/-- Linux `ENOMEM`. -/
def ENOMEM : Int := 12
/-- Linux `EBUSY`. -/
def EBUSY : Int := 16
/-- Linux `ENODEV`. -/
def ENODEV : Int := 19
/-- Linux `EINVAL`. -/
def EINVAL : Int := 22
/-- Linux `EDEADLK`. -/
def EDEADLK : Int := 35
/-- Linux `ENODATA`. -/
def ENODATA : Int := 61
/-- Linux `ENOBUFS`. -/
def ENOBUFS : Int := 105

/-- Linux `SECTOR_SHIFT`: a sector is 512 bytes. -/
def SECTOR_SHIFT : Nat := 9

/-- Linux `REQ_OP_MASK`: the low eight bits of `bi_opf` hold the operation. -/
def REQ_OP_MASK : Nat := 255

/-- An error carried by a pointer (`ERR_PTR`): `IS_ERR` holds exactly for the
values `-MAX_ERRNO .. -1`, so `PTR_ERR` of such a pointer is never zero. -/
abbrev errptr := { e : Int // -4095 ≤ e ∧ e < 0 }

/-- Result of a kernel function that returns a pointer or an `ERR_PTR`. -/
inductive ptr_or_err (α : Type) where
  | ptr (a : α)
  | err (e : errptr)
  deriving DecidableEq, Repr

/-! ## Data model -/

/-- The fields of `struct bio` read by the filter. -/
structure bio where
  bi_sector : Nat
  bi_size : Nat
  bi_opf : Nat
  deriving DecidableEq, Repr

/-- Linux `bio_op`. -/
def bio_op (b : bio) : Nat := b.bi_opf &&& REQ_OP_MASK

/-- Linux `op_is_write`: write operations are the odd ones. -/
def op_is_write (op : Nat) : Bool := (op &&& 1) != 0

/-- What a filter callback answers (`FLT_ST_PASS`, `FLT_ST_COMPLETE`). -/
inductive flt_st where
  | FLT_ST_PASS
  | FLT_ST_COMPLETE
  deriving DecidableEq, Repr

/-- A diff area as the tracker sees it: an object with an identity and the
original block device it was opened on (`diff_area->orig_bdev`). -/
structure diff_area where
  ident : Nat
  orig_bdev : Nat
  deriving DecidableEq, Repr

/-- The fields of `struct cbt_map` read by the tracker. -/
structure cbt_map where
  is_corrupted : Bool
  device_capacity : Nat
  blk_count : Nat
  snap_number_previous : Nat
  generationId : Nat
  deriving DecidableEq, Repr

/-- The fields of `struct snapimage` read by the snapshot. -/
structure snapimage where
  original_dev_id : Nat
  image_dev_id : Nat
  deriving DecidableEq, Repr

/-- The `struct tracker` of `tracker.c`.  `refcount` is the kref.
`target_dev` is the `struct block_device *` read by `tracker_collect`; it is
`NULL` (`none`) or the device it points to.  No function of the sources
assigns it, so a tracker made by `tracker_new`, whose memory comes zeroed
from `kzalloc`, has it `NULL`. -/
structure tracker where
  dev_id : Nat
  refcount : Nat
  is_busy_with_snapshot : Bool
  snapshot_id : Nat
  cbt_map : Option cbt_map
  diff_area : Option diff_area
  snapdev : Option Nat
  target_dev : Option Nat
  deriving DecidableEq, Repr

/-- The `struct snapshot` of `snapshot.c`.  The arrays hold `NULL` (`none`)
or a pointer; `tracker_array` points into the tracker heap. -/
structure snapshot where
  id : Nat
  kref : Nat
  count : Nat
  tracker_array : List (Option Nat)
  snapimage_array : List (Option snapimage)
  diff_storage : Option Nat
  deriving DecidableEq, Repr

/-- Calls that leave the module, with the arguments that matter. -/
inductive Event where
  | cbt_map_set (sector count : Nat)
  | diff_area_copy (area : Option diff_area) (sector count : Nat) (nowait : Bool)
  | bio_wouldblock_error (b : bio)
  | blkdev_get_by_dev (dev : Nat)
  | blkdev_put (dev : Nat)
  | freeze_bdev (dev : Nat)
  | thaw_bdev (dev : Nat)
  | tracker_thaw (dev : Nat)
  | filter_add (dev : Nat) (ctx : Nat)
  | filter_del (dev : Nat)
  | kzalloc
  | cbt_map_create (dev : Nat)
  | cbt_map_reset (dev : Nat)
  | cbt_map_switch (dev : Nat)
  | cbt_map_put_resource (dev : Nat)
  | snapstore_device_put_resource (dev : Nat)
  | diff_area_new (dev : Nat) (made : Option diff_area)
  | diff_area_put (area : diff_area)
  | snapimage_create (area : Option diff_area) (made : Option snapimage)
  | snapimage_put (image : snapimage)
  | diff_storage_put (storage : Nat)
  | uuid_gen (id : Nat)
  | cbt_map_read_to_user (dev offset length : Nat)
  | copy_to_user (pairs : List (Nat × Nat))
  deriving DecidableEq, Repr

/-- The world outside the module.  Every function receives the trace of the
calls made before it. -/
structure Env where
  /-- Linux `REQ_NOWAIT`, a bit of `bi_opf`; its position depends on the kernel. -/
  REQ_NOWAIT : Nat
  /-- Result of `cbt_map_set(cbt_map, sector, count)`. -/
  cbt_map_set : List Event → Option cbt_map → Nat → Nat → Int
  /-- Result of `diff_area_copy(diff_area, sector, count, nowait)`. -/
  diff_area_copy : List Event → Option diff_area → Nat → Nat → Bool → Int
  /-- Result of `blkdev_get_by_dev(dev_id, 0, NULL)`: `none` when the device
  was opened, the error otherwise. -/
  blkdev_get_by_dev : List Event → Nat → Option errptr
  /-- Result of `bdev_nr_sectors(bdev)`. -/
  bdev_nr_sectors : List Event → Nat → Nat
  /-- Result of `freeze_bdev(bdev)`. -/
  freeze_bdev : List Event → Nat → Int
  /-- Result of `thaw_bdev(bdev)`. -/
  thaw_bdev : List Event → Nat → Int
  /-- Result of `filter_add(bdev, tracker_fops, tracker)`: `none` is 0, else
  the negative errno. -/
  filter_add : List Event → Nat → Option errptr
  /-- Result of `filter_del(bdev)`: `none` is 0, else the negative errno. -/
  filter_del : List Event → Nat → Option errptr
  /-- Whether a `kzalloc`/`kcalloc` succeeds. -/
  kzalloc : List Event → Bool
  /-- Result of `cbt_map_create(bdev)`: `none` is `NULL`. -/
  cbt_map_create : List Event → Nat → Option cbt_map
  /-- Result and effect of `cbt_map_reset(cbt_map)`. -/
  cbt_map_reset : List Event → cbt_map → Int × cbt_map
  /-- Result and effect of `cbt_map_switch(cbt_map)`. -/
  cbt_map_switch : List Event → cbt_map → Int × cbt_map
  /-- Result of `diff_area_new(dev_id, diff_storage, event_queue)`. -/
  diff_area_new : List Event → Nat → ptr_or_err diff_area
  /-- Result of `snapstore_device_is_corrupted(tracker->snapdev)`. -/
  snapstore_device_is_corrupted : List Event → Option Nat → Bool
  /-- Result of `snapimage_create(diff_area, cbt_map)`. -/
  snapimage_create : List Event → Option diff_area → Option cbt_map → ptr_or_err snapimage
  /-- The identifier written by `uuid_gen`. -/
  uuid_gen : List Event → Nat
  /-- Result of `cbt_map_read_to_user(cbt_map, user_buff, offset, length)`. -/
  cbt_map_read_to_user : List Event → Option cbt_map → Nat → Nat → Int
  /-- Result of `cbt_map_blk_size(cbt_map)`. -/
  cbt_map_blk_size : cbt_map → Nat
  /-- Result of `copy_to_user`: the number of bytes that could not be copied. -/
  copy_to_user : List Event → Nat

/-! ## tracker.c: the write filter -/

/-- `tracker_submit_bio_cb` (tracker.c:50).  `ctx` is the tracker the filter
was attached with; the result is the filter status and the extended trace. -/
def tracker_submit_bio_cb (env : Env) (trace : List Event) (b : bio) (ctx : tracker) :
    flt_st × List Event :=
  let sector := b.bi_sector
  let count := b.bi_size >>> SECTOR_SHIFT
  if !op_is_write (bio_op b) then
    (flt_st.FLT_ST_PASS, trace)
  else
    let err := env.cbt_map_set trace ctx.cbt_map sector count
    let trace1 := trace ++ [Event.cbt_map_set sector count]
    if err ≠ 0 then
      (flt_st.FLT_ST_PASS, trace1)
    else if !ctx.is_busy_with_snapshot then
      (flt_st.FLT_ST_PASS, trace1)
    else
      let nowait := (b.bi_opf &&& env.REQ_NOWAIT) != 0
      let err := env.diff_area_copy trace1 ctx.diff_area sector count nowait
      let trace2 := trace1 ++ [Event.diff_area_copy ctx.diff_area sector count nowait]
      if err = 0 then
        (flt_st.FLT_ST_PASS, trace2)
      else if err = -EAGAIN then
        (flt_st.FLT_ST_COMPLETE, trace2 ++ [Event.bio_wouldblock_error b])
      else
        (flt_st.FLT_ST_PASS, trace2)

/-! ## Memory -/

/-- The state of the module: the two heaps, the two global lists
(`LIST_HEAD(trackers)`, `LIST_HEAD(snapshots)`, as the addresses met when
walking the list from its head) and the trace of external calls. -/
structure State where
  tracker_heap : List (Option tracker)
  trackers : List Nat
  snapshot_heap : List (Option snapshot)
  snapshots : List Nat
  trace : List Event
  deriving DecidableEq, Repr

/-- Dereference address `p`: `none` when it is outside the heap or freed. -/
def heap_get {α : Type} (h : List (Option α)) (p : Nat) : Option α :=
  match h[p]? with
  | some (some a) => some a
  | _ => none

/-- Record an external call. -/
def State.emit (st : State) (e : Event) : State :=
  { st with trace := st.trace ++ [e] }

/-- Store `t` at address `p` of the tracker heap. -/
def State.set_tracker (st : State) (p : Nat) (t : tracker) : State :=
  { st with tracker_heap := st.tracker_heap.set p (some t) }

/-- Store `s` at address `p` of the snapshot heap. -/
def State.set_snapshot (st : State) (p : Nat) (s : snapshot) : State :=
  { st with snapshot_heap := st.snapshot_heap.set p (some s) }

/-- The integer a `0`-or-errno result stands for. -/
def errno_int : Option errptr → Int
  | none => 0
  | some e => e.val

/-- `for (inx = 0; inx < count; inx++) body`, where the body may leave the
loop (`break`, `goto`) with a value.  The third argument is the number of
iterations still to run, so the current index is `count` minus it; the loop
is entered as `for_loop count body count`. -/
def for_loop {β : Type} (count : Nat) (body : Nat → State → Option (Option β × State)) :
    Nat → State → Option (Option β × State)
  | 0, st => some (none, st)
  | k + 1, st =>
    match body (count - (k + 1)) st with
    | none => none
    | some (some b, st1) => some (some b, st1)
    | some (none, st1) => for_loop count body k st1

/-- `for (inx = 0; inx < count; inx++) body` for a body that never leaves
the loop early; entered as `for_each count body count`. -/
def for_each (count : Nat) (body : Nat → State → Option State) : Nat → State → Option State
  | 0, st => some st
  | k + 1, st =>
    match body (count - (k + 1)) st with
    | none => none
    | some st1 => for_each count body k st1

/-- `while ((--inx) >= 0) body`: the body runs for `inx - 1`, ..., `0`. -/
def while_dec (body : Nat → State → Option State) : Nat → State → Option State
  | 0, st => some st
  | k + 1, st =>
    match body k st with
    | none => none
    | some st1 => while_dec body k st1

/-! ## tracker.c -/

/-- `tracker_free` (tracker.c:11), the kref release function of the tracker at
address `p`, whose last content is `t`. -/
def tracker_free (st : State) (p : Nat) (t : tracker) : State :=
  let st1 := match t.snapdev with
    | some _ => st.emit (Event.snapstore_device_put_resource t.dev_id)
    | none => st
  let st2 := match t.cbt_map with
    | some _ => st1.emit (Event.cbt_map_put_resource t.dev_id)
    | none => st1
  { st2 with tracker_heap := st2.tracker_heap.set p none }

/-- Modelled from the spec: `tracker_get` is declared in tracker.h, which is
not among the sources; "Refcounts on Tracker, Snapshot, and Snapshot Image
use atomic counters".  It takes one reference (`kref_get`). -/
def tracker_get (st : State) (p : Nat) : Option State :=
  match heap_get st.tracker_heap p with
  | none => none
  | some t => some (st.set_tracker p { t with refcount := t.refcount + 1 })

/-- Modelled from the spec: `tracker_put` is declared in tracker.h, which is
not among the sources; "last-drop triggers destruction".  Like `snapshot_put`
of snapshot.c it ignores `NULL`; otherwise it drops one reference, and the
drop that takes the count from 1 to 0 runs `tracker_free`. -/
def tracker_put (st : State) : Option Nat → Option State
  | none => some st
  | some p =>
    match heap_get st.tracker_heap p with
    | none => none
    | some t =>
      if t.refcount = 1 then some (tracker_free st p t)
      else some (st.set_tracker p { t with refcount := t.refcount - 1 })

/-- The `list_for_each_entry` of `tracker_get_by_dev_id`: the first tracker of
the list with this `dev_id` (`some none` when there is none). -/
def tracker_find (heap : List (Option tracker)) (dev_id : Nat) : List Nat → Option (Option Nat)
  | [] => some none
  | p :: rest =>
    match heap_get heap p with
    | none => none
    | some t => if t.dev_id = dev_id then some (some p) else tracker_find heap dev_id rest

/-- `tracker_get_by_dev_id` (tracker.c:28): the tracker found, with one more
reference, or `NULL`. -/
def tracker_get_by_dev_id (st : State) (dev_id : Nat) : Option (Option Nat × State) :=
  match tracker_find st.tracker_heap dev_id st.trackers with
  | none => none
  | some none => some (none, st)
  | some (some p) =>
    match tracker_get st p with
    | none => none
    | some st1 => some (some p, st1)

/-- The two commands of `tracker_filter`. -/
inductive filter_cmd where
  | filter_cmd_add
  | filter_cmd_del
  deriving DecidableEq, Repr

/-- `tracker_filter` (tracker.c:96), the branch without
`HAVE_SUPER_BLOCK_FREEZE`.  A failed freeze or thaw is only logged. -/
def tracker_filter (env : Env) (st : State) (p : Nat) (flt_cmd : filter_cmd) :
    Option (Option errptr × State) :=
  match heap_get st.tracker_heap p with
  | none => none
  | some t =>
    let bdev := env.blkdev_get_by_dev st.trace t.dev_id
    let st1 := st.emit (Event.blkdev_get_by_dev t.dev_id)
    match bdev with
    | some e => some (some e, st1)
    | none =>
      let st2 := if env.freeze_bdev st1.trace t.dev_id ≠ 0
        then st1.emit (Event.freeze_bdev t.dev_id)
        else st1.emit (Event.freeze_bdev t.dev_id)
      let (ret, st3) := match flt_cmd with
        | filter_cmd.filter_cmd_add =>
          (env.filter_add st2.trace t.dev_id, st2.emit (Event.filter_add t.dev_id p))
        | filter_cmd.filter_cmd_del =>
          (env.filter_del st2.trace t.dev_id, st2.emit (Event.filter_del t.dev_id))
      let st4 := if env.thaw_bdev st3.trace t.dev_id ≠ 0
        then st3.emit (Event.thaw_bdev t.dev_id)
        else st3.emit (Event.thaw_bdev t.dev_id)
      some (ret, st4.emit (Event.blkdev_put t.dev_id))

/-- `tracker_new` (tracker.c:142).  The source declares it as returning `int`
and writing `*ptracker`, while its only caller takes the result as a pointer
or `ERR_PTR`; it is embedded as the caller uses it.  `ret` is read without
having been set when `cbt_map_create` succeeds; it is taken as 0 there. -/
def tracker_new (env : Env) (st : State) (dev_id : Nat) : Option (ptr_or_err Nat × State) :=
  let ok := env.kzalloc st.trace
  let st1 := st.emit Event.kzalloc
  if !ok then
    some (ptr_or_err.err ⟨-ENOMEM, by decide⟩, st1)
  else
    let p := st1.tracker_heap.length
    let t : tracker :=
      { dev_id := dev_id, refcount := 1, is_busy_with_snapshot := false, snapshot_id := 0,
        cbt_map := none, diff_area := none, snapdev := none, target_dev := none }
    let st2 := { st1 with tracker_heap := st1.tracker_heap ++ [some t] }
    let bdev := env.blkdev_get_by_dev st2.trace dev_id
    let st3 := st2.emit (Event.blkdev_get_by_dev dev_id)
    match bdev with
    | some e => some (ptr_or_err.err e, { st3 with tracker_heap := st3.tracker_heap.set p none })
    | none =>
      let cm := env.cbt_map_create st3.trace dev_id
      let st4 := (st3.emit (Event.cbt_map_create dev_id)).set_tracker p { t with cbt_map := cm }
      match cm with
      | none =>
        match tracker_put st4 (some p) with
        | none => none
        | some st5 => some (ptr_or_err.err ⟨-ENOMEM, by decide⟩, st5.emit (Event.blkdev_put dev_id))
      | some _ => some (ptr_or_err.ptr p, st4.emit (Event.blkdev_put dev_id))

/-- `tracker_take_snapshot` (tracker.c:374) on the tracker at address `p`.
The value of `cbt_map_switch` is not looked at, and the tracker is marked
busy whatever `cbt_map_reset` returned. -/
def tracker_take_snapshot (env : Env) (st : State) (p : Nat) : Option (Int × State) :=
  match heap_get st.tracker_heap p with
  | none => none
  | some t =>
    match t.cbt_map, t.diff_area with
    | some cm, some da =>
      let cbt_reset_needed :=
        cm.is_corrupted || (cm.device_capacity != env.bdev_nr_sectors st.trace da.orig_bdev)
      if cbt_reset_needed then
        let r := env.cbt_map_reset st.trace cm
        some (r.1, (st.emit (Event.cbt_map_reset t.dev_id)).set_tracker p
          { t with cbt_map := some r.2, is_busy_with_snapshot := true })
      else
        let r := env.cbt_map_switch st.trace cm
        some (0, (st.emit (Event.cbt_map_switch t.dev_id)).set_tracker p
          { t with cbt_map := some r.2, is_busy_with_snapshot := true })
    | _, _ => none

/-- `tracker_release_snapshot` (tracker.c:401). -/
def tracker_release_snapshot (st : State) : Option Nat → Option State
  | none => some st
  | some p =>
    match heap_get st.tracker_heap p with
    | none => none
    | some t => some (st.set_tracker p { t with is_busy_with_snapshot := false })

/-- `tracker_create_or_get` (tracker.c:442).  `ret = tracker_filter(...)` is
read as the assignment to `result` that the next line tests.
`list_add_tail(&trackers, tracker)` has no meaning as written (`tracker` is
a `struct tracker *`, not a list node): it is read as linking the tracker at
the tail of the list `trackers`, where `tracker_get_by_dev_id`,
`tracker_collect` and `tracker_done` look for it. -/
def tracker_create_or_get (env : Env) (st : State) (dev_id : Nat) :
    Option (ptr_or_err Nat × State) :=
  match tracker_get_by_dev_id st dev_id with
  | none => none
  | some (some p, st1) => some (ptr_or_err.ptr p, st1)
  | some (none, st1) =>
    match tracker_new env st1 dev_id with
    | none => none
    | some (ptr_or_err.err e, st2) => some (ptr_or_err.err e, st2)
    | some (ptr_or_err.ptr p, st2) =>
      match tracker_filter env st2 p filter_cmd.filter_cmd_add with
      | none => none
      | some (some e, st3) =>
        match tracker_put st3 (some p) with
        | none => none
        | some st4 => some (ptr_or_err.err e, st4)
      | some (none, st3) =>
        tracker_get { st3 with trackers := st3.trackers ++ [p] } p
          |>.map fun st4 => (ptr_or_err.ptr p, st4)

/-- `tracker_remove` (tracker.c:476).  Its `list_add_tail(&trackers, tracker)`
is the same call as in `tracker_create_or_get` and is embedded the same way. -/
def tracker_remove (env : Env) (st : State) (dev_id : Nat) : Option (Int × State) :=
  match tracker_get_by_dev_id st dev_id with
  | none => none
  | some (none, st1) => some (-ENODATA, st1)
  | some (some p, st1) =>
    match heap_get st1.tracker_heap p with
    | none => none
    | some t =>
      if t.is_busy_with_snapshot then
        match tracker_put st1 (some p) with
        | none => none
        | some st2 => some (-EBUSY, st2)
      else
        match tracker_filter env st1 p filter_cmd.filter_cmd_del with
        | none => none
        | some (ret, st2) =>
          let st3 := { st2 with trackers := st2.trackers ++ [p] }
          match tracker_put st3 (some p) with
          | none => none
          | some st4 =>
            match tracker_put st4 (some p) with
            | none => none
            | some st5 => some (errno_int ret, st5)

/-! ## snapshot.c -/

/-- Read `snapshot->tracker_array[inx]` and, unless it is `NULL`, the tracker
it points to.  `some none` stands for a `NULL` entry. -/
def tracker_entry (s : snapshot) (st : State) (inx : Nat) : Option (Option (Nat × tracker)) :=
  match s.tracker_array[inx]? with
  | none => none
  | some none => some none
  | some (some p) =>
    match heap_get st.tracker_heap p with
    | none => none
    | some t => some (some (p, t))

/-- `freeze_bdev(tracker->diff_area->orig_bdev)` with its `pr_err`, as in the
branch without `HAVE_SUPER_BLOCK_FREEZE`: a failure is only logged. -/
def freeze_tracker (env : Env) (st : State) (t : tracker) : Option State :=
  match t.diff_area with
  | none => none
  | some da =>
    if env.freeze_bdev st.trace da.orig_bdev ≠ 0
    then some (st.emit (Event.freeze_bdev da.orig_bdev))
    else some (st.emit (Event.freeze_bdev da.orig_bdev))

/-- `thaw_bdev(tracker->diff_area->orig_bdev)` with its `pr_err`: a failure is
only logged. -/
def thaw_tracker (env : Env) (st : State) (t : tracker) : Option State :=
  match t.diff_area with
  | none => none
  | some da =>
    if env.thaw_bdev st.trace da.orig_bdev ≠ 0
    then some (st.emit (Event.thaw_bdev da.orig_bdev))
    else some (st.emit (Event.thaw_bdev da.orig_bdev))

/-- Modelled from the spec: `tracker_thaw` is called by `snapshot_take` but
defined nowhere in the sources; the call stands under the comment
"thaw all freeze devices" and the spec has "thaw all already-frozen
devices".  It thaws the device of the tracker. -/
def tracker_thaw (st : State) (t : tracker) : State :=
  st.emit (Event.tracker_thaw t.dev_id)

/-- Body of the loop of `snapshot_free` that puts the snapshot images. -/
def free_image (s : snapshot) (inx : Nat) (st : State) : Option State :=
  match s.snapimage_array[inx]? with
  | none => none
  | some none => some st
  | some (some image) => some (st.emit (Event.snapimage_put image))

/-- Body of the freeze loop of `snapshot_free` and of `snapshot_take`. -/
def freeze_entry (env : Env) (s : snapshot) (inx : Nat) (st : State) : Option State :=
  match tracker_entry s st inx with
  | none => none
  | some none => some st
  | some (some (_, t)) => freeze_tracker env st t

/-- Body of the loop of `snapshot_free` that releases the trackers. -/
def release_entry (s : snapshot) (inx : Nat) (st : State) : Option State :=
  match s.tracker_array[inx]? with
  | none => none
  | some none => some st
  | some (some p) => tracker_release_snapshot st (some p)

/-- Body of the thaw loop of `snapshot_free`. -/
def thaw_entry (env : Env) (s : snapshot) (inx : Nat) (st : State) : Option State :=
  match tracker_entry s st inx with
  | none => none
  | some none => some st
  | some (some (_, t)) => thaw_tracker env st t

/-- Body of the loop of `snapshot_free` that puts the trackers. -/
def put_entry (s : snapshot) (inx : Nat) (st : State) : Option State :=
  match s.tracker_array[inx]? with
  | none => none
  | some entry => tracker_put st entry

/-- `snapshot_free` (snapshot.c:12), the kref release function of the snapshot
at address `sp`, whose last content is `s`. -/
def snapshot_free (env : Env) (st : State) (sp : Nat) (s : snapshot) : Option State :=
  match for_each s.count (free_image s) s.count st with
  | none => none
  | some st1 =>
  match for_each s.count (freeze_entry env s) s.count st1 with
  | none => none
  | some st2 =>
  match for_each s.count (release_entry s) s.count st2 with
  | none => none
  | some st3 =>
  match for_each s.count (thaw_entry env s) s.count st3 with
  | none => none
  | some st4 =>
  match for_each s.count (put_entry s) s.count st4 with
  | none => none
  | some st5 =>
    let st6 := match s.diff_storage with
      | some d => st5.emit (Event.diff_storage_put d)
      | none => st5
    some { st6 with snapshot_heap := st6.snapshot_heap.set sp none }

/-- `snapshot_get` (snapshot.c:70). -/
def snapshot_get (st : State) (sp : Nat) : Option State :=
  match heap_get st.snapshot_heap sp with
  | none => none
  | some s => some (st.set_snapshot sp { s with kref := s.kref + 1 })

/-- `snapshot_put` (snapshot.c:74): `NULL` is ignored; the drop that takes the
count from 1 to 0 runs `snapshot_free`. -/
def snapshot_put (env : Env) (st : State) : Option Nat → Option State
  | none => some st
  | some sp =>
    match heap_get st.snapshot_heap sp with
    | none => none
    | some s =>
      if s.kref = 1 then snapshot_free env st sp s
      else some (st.set_snapshot sp { s with kref := s.kref - 1 })

/-- The `list_for_each_entry` of `snapshot_get_by_id`: the first snapshot of
the list with this id.  `_snap->id == id` is read as the two identifiers
being equal. -/
def snapshot_find (heap : List (Option snapshot)) (id : Nat) : List Nat → Option (Option Nat)
  | [] => some none
  | sp :: rest =>
    match heap_get heap sp with
    | none => none
    | some s => if s.id = id then some (some sp) else snapshot_find heap id rest

/-- `snapshot_get_by_id` (snapshot.c:199). -/
def snapshot_get_by_id (st : State) (id : Nat) : Option (Option Nat × State) :=
  match snapshot_find st.snapshot_heap id st.snapshots with
  | none => none
  | some none => some (none, st)
  | some (some sp) =>
    match snapshot_get st sp with
    | none => none
    | some st1 => some (some sp, st1)

/-- `snapshot_new` (snapshot.c:97), the branch without
`HAVE_SUPER_BLOCK_FREEZE`.  The structure comes zeroed from `kzalloc` and the
function assigns neither `count` nor `diff_storage`, so both stay 0.
`list_add_tail(&snapshots, &snapshot->link)` gives the list head as the entry
to insert and the link of the new snapshot, a list of its own since
`INIT_LIST_HEAD`, as the list to insert into: `__list_add` makes the two
point to each other, and a walk from `snapshots` then meets the new snapshot
and nothing else. -/
def snapshot_new (env : Env) (st : State) (count : Nat) : ptr_or_err Nat × State :=
  let ok1 := env.kzalloc st.trace
  let st1 := st.emit Event.kzalloc
  if !ok1 then (ptr_or_err.err ⟨-ENOMEM, by decide⟩, st1)
  else
    let ok2 := env.kzalloc st1.trace
    let st2 := st1.emit Event.kzalloc
    if !ok2 then (ptr_or_err.err ⟨-ENOMEM, by decide⟩, st2)
    else
      let ok3 := env.kzalloc st2.trace
      let st3 := st2.emit Event.kzalloc
      if !ok3 then (ptr_or_err.err ⟨-ENOMEM, by decide⟩, st3)
      else
        let id := env.uuid_gen st3.trace
        let st4 := st3.emit (Event.uuid_gen id)
        let sp := st4.snapshot_heap.length
        let s : snapshot :=
          { id := id, kref := 1, count := 0,
            tracker_array := List.replicate count none,
            snapimage_array := List.replicate count none,
            diff_storage := none }
        (ptr_or_err.ptr sp,
          { st4 with snapshot_heap := st4.snapshot_heap ++ [some s], snapshots := [sp] })

/-- Body of the loop of `snapshot_create`; it leaves the loop with the error
of `tracker_create_or_get`. -/
def create_entry (env : Env) (dev_id_array : List Nat) (sp : Nat) (inx : Nat) (st : State) :
    Option (Option Int × State) :=
  match dev_id_array[inx]? with
  | none => none
  | some dev_id =>
    match tracker_create_or_get env st dev_id with
    | none => none
    | some (ptr_or_err.err e, st1) => some (some e.val, st1)
    | some (ptr_or_err.ptr p, st1) =>
      match heap_get st1.snapshot_heap sp with
      | none => none
      | some s =>
        if inx < s.tracker_array.length then
          some (none, st1.set_snapshot sp { s with tracker_array := s.tracker_array.set inx (some p) })
        else none

/-- `snapshot_create` (snapshot.c:153).  The result is the value returned,
the identifier written to `*id` if any, and the new state. -/
def snapshot_create (env : Env) (st : State) (dev_id_array : List Nat) (count : Nat) :
    Option (Int × Option Nat × State) :=
  match snapshot_new env st count with
  | (ptr_or_err.err e, st1) => some (e.val, none, st1)
  | (ptr_or_err.ptr sp, st1) =>
    match heap_get st1.snapshot_heap sp with
    | none => none
    | some s =>
      match for_loop s.count (create_entry env dev_id_array sp) s.count st1 with
      | none => none
      | some (none, st2) => some (0, some s.id, st2)
      | some (some ret, st2) =>
        match snapshot_put env { st2 with snapshots := st2.snapshots.erase sp } (some sp) with
        | none => none
        | some st3 => some (ret, none, st3)

/-- First loop of `snapshot_take`: a diff area for each tracker.  It leaves
with `goto fail`, carrying `ret` and `inx`. -/
def take_diff_area (env : Env) (s : snapshot) (inx : Nat) (st : State) :
    Option (Option (Int × Nat) × State) :=
  match tracker_entry s st inx with
  | none => none
  | some none => some (none, st)
  | some (some (p, t)) =>
    match env.diff_area_new st.trace t.dev_id with
    | ptr_or_err.err e => some (some (e.val, inx), st.emit (Event.diff_area_new t.dev_id none))
    | ptr_or_err.ptr da =>
      some (none, (st.emit (Event.diff_area_new t.dev_id (some da))).set_tracker p
        { t with diff_area := some da })

/-- Third loop of `snapshot_take`: `tracker_take_snapshot` for each tracker.
It leaves with `goto fail`, carrying `ret` and `inx`. -/
def take_tracker (env : Env) (s : snapshot) (inx : Nat) (st : State) :
    Option (Option (Int × Nat) × State) :=
  match s.tracker_array[inx]? with
  | none => none
  | some none => some (none, st)
  | some (some p) =>
    match tracker_take_snapshot env st p with
    | none => none
    | some (ret, st1) => if ret ≠ 0 then some (some (ret, inx), st1) else some (none, st1)

/-- Fourth loop of `snapshot_take`: thaw, then the corrupted check, which
leaves the loop with `break` and `ret = -EDEADLK`. -/
def take_thaw (env : Env) (s : snapshot) (inx : Nat) (st : State) :
    Option (Option Int × State) :=
  match tracker_entry s st inx with
  | none => none
  | some none => some (none, st)
  | some (some (_, t)) =>
    match thaw_tracker env st t with
    | none => none
    | some st1 =>
      if env.snapstore_device_is_corrupted st1.trace t.snapdev then some (some (-EDEADLK), st1)
      else some (none, st1)

/-- Fifth loop of `snapshot_take`: a snapshot image for each entry, with no
test for a `NULL` tracker.  It leaves with `break` and `ret` set to the error
of `snapimage_create`. -/
def take_image (env : Env) (s : snapshot) (sp : Nat) (inx : Nat) (st : State) :
    Option (Option Int × State) :=
  match tracker_entry s st inx with
  | none => none
  | some none => none
  | some (some (_, t)) =>
    match env.snapimage_create st.trace t.diff_area t.cbt_map with
    | ptr_or_err.err e => some (some e.val, st.emit (Event.snapimage_create t.diff_area none))
    | ptr_or_err.ptr image =>
      let st1 := st.emit (Event.snapimage_create t.diff_area (some image))
      match heap_get st1.snapshot_heap sp with
      | none => none
      | some cur =>
        if inx < cur.snapimage_array.length then
          some (none, st1.set_snapshot sp
            { cur with snapimage_array := cur.snapimage_array.set inx (some image) })
        else none

/-- Body of the loop of the `fail` path that calls `tracker_thaw`. -/
def fail_thaw (s : snapshot) (inx : Nat) (st : State) : Option State :=
  match tracker_entry s st inx with
  | none => none
  | some none => some st
  | some (some (_, t)) => some (tracker_thaw st t)

/-- Body of the loop of the `fail` path that puts the diff areas; the pointer
`tracker->diff_area` is left as it is. -/
def fail_put (s : snapshot) (inx : Nat) (st : State) : Option State :=
  match tracker_entry s st inx with
  | none => none
  | some none => some st
  | some (some (_, t)) =>
    match t.diff_area with
    | none => some st
    | some da => some (st.emit (Event.diff_area_put da))

/-- The `fail` label of `snapshot_take`, reached with `inx` the index at which
the loop was left. -/
def take_fail (s : snapshot) (inx : Nat) (st : State) : Option State :=
  match while_dec (release_entry s) inx st with
  | none => none
  | some st1 =>
  match for_each s.count (fail_thaw s) s.count st1 with
  | none => none
  | some st2 => for_each s.count (fail_put s) s.count st2

/-- The part of `snapshot_take` between `snapshot_get_by_id` and the label
`out`, for the snapshot `s` found at address `sp`.  The loops read `count`
and `tracker_array`, which nothing changes meanwhile, from `s`. -/
def take_steps (env : Env) (sp : Nat) (s : snapshot) (st : State) : Option (Int × State) :=
  match for_loop s.count (take_diff_area env s) s.count st with
  | none => none
  | some (some (ret, inx), st1) => (take_fail s inx st1).map fun st2 => (ret, st2)
  | some (none, st1) =>
  match for_each s.count (freeze_entry env s) s.count st1 with
  | none => none
  | some st2 =>
  match for_loop s.count (take_tracker env s) s.count st2 with
  | none => none
  | some (some (ret, inx), st3) => (take_fail s inx st3).map fun st4 => (ret, st4)
  | some (none, st3) =>
  match for_loop s.count (take_thaw env s) s.count st3 with
  | none => none
  | some (r4, st4) =>
  match for_loop s.count (take_image env s sp) s.count st4 with
  | none => none
  | some (some ret, st5) => some (ret, st5)
  | some (none, st5) => some (r4.getD 0, st5)

/-- `snapshot_take` (snapshot.c:265). -/
def snapshot_take (env : Env) (st : State) (id : Nat) : Option (Int × State) :=
  match snapshot_get_by_id st id with
  | none => none
  | some (none, st0) => some (-ESRCH, st0)
  | some (some sp, st0) =>
    match heap_get st0.snapshot_heap sp with
    | none => none
    | some s =>
      match take_steps env sp s st0 with
      | none => none
      | some (ret, st1) =>
        match snapshot_put env st1 (some sp) with
        | none => none
        | some st2 => some (ret, st2)

/-! ## Relations between states, used to state what a step preserves -/

/-- `keeps st st1`: from `st` to `st1` the trace only grew, every live
tracker is still live with the same device and diff area, and is still busy
with a snapshot if it was, and every live snapshot is still live with the
same reference count. -/
def keeps (st st1 : State) : Prop :=
  (∃ evs, st1.trace = st.trace ++ evs) ∧
  (∀ p t, heap_get st.tracker_heap p = some t →
    ∃ t1, heap_get st1.tracker_heap p = some t1 ∧ t1.dev_id = t.dev_id ∧
      t1.diff_area = t.diff_area ∧
      (t.is_busy_with_snapshot = true → t1.is_busy_with_snapshot = true)) ∧
  ∀ sp x, heap_get st.snapshot_heap sp = some x →
    ∃ x1, heap_get st1.snapshot_heap sp = some x1 ∧ x1.kref = x.kref

/-- The tracker at `p` holds a diff area made by a `diff_area_new` call for its
device that was recorded after the trace `tr0`. -/
def tracker_built (tr0 : List Event) (st : State) (p : Nat) : Prop :=
  ∃ t da evs, heap_get st.tracker_heap p = some t ∧ t.diff_area = some da ∧
    st.trace = tr0 ++ evs ∧ Event.diff_area_new t.dev_id (some da) ∈ evs

/-- The tracker at `p` is live and busy with a snapshot. -/
def tracker_armed (st : State) (p : Nat) : Prop :=
  ∃ t, heap_get st.tracker_heap p = some t ∧ t.is_busy_with_snapshot = true

/-! ## Inputs of the witnesses and counterexamples -/

/-- A CBT map of a device of 100 sectors. -/
def cbt_map_100 : cbt_map :=
  { is_corrupted := false, device_capacity := 100, blk_count := 1,
    snap_number_previous := 0, generationId := 0 }

/-- A world in which every external call succeeds and every device has 100
sectors. -/
def env_ok : Env :=
  { REQ_NOWAIT := 2097152
    cbt_map_set := fun _ _ _ _ => 0
    diff_area_copy := fun _ _ _ _ _ => 0
    blkdev_get_by_dev := fun _ _ => none
    bdev_nr_sectors := fun _ _ => 100
    freeze_bdev := fun _ _ => 0
    thaw_bdev := fun _ _ => 0
    filter_add := fun _ _ => none
    filter_del := fun _ _ => none
    kzalloc := fun _ => true
    cbt_map_create := fun _ _ => some cbt_map_100
    cbt_map_reset := fun _ c => (0, c)
    cbt_map_switch := fun _ c => (0, c)
    diff_area_new := fun tr d => ptr_or_err.ptr { ident := tr.length, orig_bdev := d }
    snapstore_device_is_corrupted := fun _ _ => false
    snapimage_create := fun _ a _ =>
      ptr_or_err.ptr { original_dev_id := (a.map diff_area.orig_bdev).getD 0, image_dev_id := 900 }
    uuid_gen := fun tr => tr.length
    cbt_map_read_to_user := fun _ _ _ length => length
    cbt_map_blk_size := fun _ => 4096
    copy_to_user := fun _ => 0 }

/-- The world of `env_ok`, except that `cbt_map_set` fails. -/
def env_cbt_fails : Env := { env_ok with cbt_map_set := fun _ _ _ _ => -EINVAL }

/-- A tracker of device 1 that is busy with a snapshot. -/
def armed_tracker : tracker :=
  { dev_id := 1, refcount := 2, is_busy_with_snapshot := true, snapshot_id := 0,
    cbt_map := some cbt_map_100, diff_area := some { ident := 0, orig_bdev := 1 },
    snapdev := none, target_dev := none }

/-- A write (`REQ_OP_WRITE`) of 16 sectors at sector 8. -/
def write_bio : bio := { bi_sector := 8, bi_size := 8192, bi_opf := 1 }

/-- A tracker of device `d`, not busy with a snapshot, referenced by the
tracker list and by one snapshot. -/
def plain_tracker (d : Nat) : tracker :=
  { dev_id := d, refcount := 2, is_busy_with_snapshot := false, snapshot_id := 0,
    cbt_map := some cbt_map_100, diff_area := none, snapdev := none, target_dev := none }

/-- A snapshot with identifier 7 of the trackers at addresses 0 and 1. -/
def two_snapshot : snapshot :=
  { id := 7, kref := 1, count := 2, tracker_array := [some 0, some 1],
    snapimage_array := [none, none], diff_storage := none }

/-- Devices 1 and 2 are tracked and belong to the snapshot 7, not yet taken. -/
def two_state : State :=
  { tracker_heap := [some (plain_tracker 1), some (plain_tracker 2)]
    trackers := [0, 1]
    snapshot_heap := [some two_snapshot]
    snapshots := [0]
    trace := [] }

/-- The state `two_state` after a successful `snapshot_take` in `env_ok`. -/
def two_state_taken : State :=
  { tracker_heap :=
      [some { plain_tracker 1 with
                is_busy_with_snapshot := true, diff_area := some { ident := 0, orig_bdev := 1 } },
       some { plain_tracker 2 with
                is_busy_with_snapshot := true, diff_area := some { ident := 1, orig_bdev := 2 } }]
    trackers := [0, 1]
    snapshot_heap :=
      [some { two_snapshot with
                snapimage_array := [some { original_dev_id := 1, image_dev_id := 900 },
                                    some { original_dev_id := 2, image_dev_id := 900 }] }]
    snapshots := [0]
    trace :=
      [Event.diff_area_new 1 (some { ident := 0, orig_bdev := 1 }),
       Event.diff_area_new 2 (some { ident := 1, orig_bdev := 2 }),
       Event.freeze_bdev 1, Event.freeze_bdev 2,
       Event.cbt_map_switch 1, Event.cbt_map_switch 2,
       Event.thaw_bdev 1, Event.thaw_bdev 2,
       Event.snapimage_create (some { ident := 0, orig_bdev := 1 })
         (some { original_dev_id := 1, image_dev_id := 900 }),
       Event.snapimage_create (some { ident := 1, orig_bdev := 2 })
         (some { original_dev_id := 2, image_dev_id := 900 })] }

/-- The world of `env_ok`, except that every device now has 200 sectors and
`cbt_map_reset` fails for want of memory. -/
def env_reset_fails : Env :=
  { env_ok with bdev_nr_sectors := fun _ _ => 200, cbt_map_reset := fun _ c => (-ENOMEM, c) }

/-- The world of `env_ok`, except that the snapshot store is reported
corrupted. -/
def env_corrupted : Env :=
  { env_ok with snapstore_device_is_corrupted := fun _ _ => true }

/-- The world of `env_ok`, except that `freeze_bdev` fails. -/
def env_freeze_fails : Env := { env_ok with freeze_bdev := fun _ _ => -EBUSY }

/-- Nothing is tracked and there is no snapshot. -/
def empty_state : State :=
  { tracker_heap := [], trackers := [], snapshot_heap := [], snapshots := [], trace := [] }

/-- Device 1 is tracked and its tracker is busy with a snapshot. -/
def armed_state : State :=
  { tracker_heap := [some armed_tracker], trackers := [0], snapshot_heap := [],
    snapshots := [], trace := [] }

/-! ## tracker.c and snapshot.c: the queries -/

/-- The `struct blk_snap_cbt_info` filled by `tracker_collect`. -/
structure blk_snap_cbt_info where
  dev_id : Nat
  dev_capacity : Nat
  blk_size : Nat
  blk_count : Nat
  snap_number : Nat
  generationId : Nat
  deriving DecidableEq, Repr

/-- The assignments `tracker_collect` makes to `cbt_info[count]` for the
tracker `t`, with their casts to `__u32`, `__u64` and `__u8`; `old` is what
the entry held before.  `bdev_nr_sectors(tracker->target_dev)` reads the
block device through the pointer: with `target_dev` `NULL` it is a memory
fault (`none`). -/
def collect_entry (env : Env) (trace : List Event) (t : tracker) (old : blk_snap_cbt_info) :
    Option blk_snap_cbt_info :=
  match t.target_dev with
  | none => none
  | some bdev =>
    let e : blk_snap_cbt_info :=
      { old with
        dev_id := t.dev_id % 2 ^ 32
        dev_capacity := (env.bdev_nr_sectors trace bdev <<< SECTOR_SHIFT) % 2 ^ 64 }
    match t.cbt_map with
    | some cm =>
      some { e with
        blk_size := env.cbt_map_blk_size cm % 2 ^ 32
        blk_count := cm.blk_count % 2 ^ 32
        snap_number := cm.snap_number_previous % 2 ^ 8
        generationId := cm.generationId }
    | none => some { e with blk_size := 0, blk_count := 0, snap_number := 0 }

/-- The second `list_for_each_entry` of `tracker_collect`, over the trackers
still to visit, with the current `count` and buffer.  It yields `result`,
`count` and the buffer. -/
def collect_loop (env : Env) (st : State) (max_count : Nat) :
    List Nat → Nat → List blk_snap_cbt_info → Option (Int × Nat × List blk_snap_cbt_info)
  | [], count, buf => some (0, count, buf)
  | p :: rest, count, buf =>
    if count ≥ max_count then some (-ENOBUFS, count, buf)
    else
      match heap_get st.tracker_heap p with
      | none => none
      | some t =>
        match buf[count]? with
        | none => none
        | some old =>
          match collect_entry env st.trace t old with
          | none => none
          | some e => collect_loop env st max_count rest (count + 1) (buf.set count e)

/-- `tracker_collect` (tracker.c:537).  `cbt_info` is `none` for a `NULL`
buffer; the result is the value returned, `*pcount` and the buffer. -/
def tracker_collect (env : Env) (st : State) (max_count : Nat)
    (cbt_info : Option (List blk_snap_cbt_info)) :
    Option (Int × Nat × Option (List blk_snap_cbt_info)) :=
  if st.trackers = [] then some (-ENODATA, 0, cbt_info)
  else
    match cbt_info with
    | none => some (0, st.trackers.length, none)
    | some buf =>
      (collect_loop env st max_count st.trackers 0 buf).map
        fun r => (r.1, r.2.1, some r.2.2)

/-- Second loop of `snapshot_collect_images`: the pairs of the images that
are set, in index order.  `.original_dev_id` on the array entry is read as
`->original_dev_id`. -/
def collect_image (s : snapshot) (inx : Nat) (acc : List (Nat × Nat)) :
    Option (List (Nat × Nat)) :=
  match s.snapimage_array[inx]? with
  | none => none
  | some none => some acc
  | some (some image) => some (acc ++ [(image.original_dev_id, image.image_dev_id)])

/-- The loop `for (inx = 0; inx < snapshot->count; inx++)` around
`collect_image`; the second argument is the number of iterations left. -/
def collect_images_loop (s : snapshot) : Nat → List (Nat × Nat) → Option (List (Nat × Nat))
  | 0, acc => some acc
  | k + 1, acc =>
    match collect_image s (s.count - (k + 1)) acc with
    | none => none
    | some acc1 => collect_images_loop s k acc1

/-- `snapshot_collect_images` (snapshot.c:413).  `res` is read as `ret`, and
`real_count` as `count`.  The snapshot is used without a test for `NULL`.  The
first loop tests `snapshot->snapimage_array`, the array itself, which is
never `NULL`, so it counts every index below `snapshot->count`.  The result
is the value returned, `*pcount` and the new state; the pairs copied out are
in the `copy_to_user` event. -/
def snapshot_collect_images (env : Env) (st : State) (id : Nat) (pcount : Nat) :
    Option (Int × Nat × State) :=
  match snapshot_get_by_id st id with
  | none => none
  | some (none, _) => none
  | some (some sp, st0) =>
    match heap_get st0.snapshot_heap sp with
    | none => none
    | some s =>
      let count := s.count
      if pcount < count then
        (snapshot_put env st0 (some sp)).map fun st1 => (-ENODATA, count, st1)
      else
        let ok := env.kzalloc st0.trace
        let st1 := st0.emit Event.kzalloc
        if !ok then
          (snapshot_put env st1 (some sp)).map fun st2 => (-ENOMEM, count, st2)
        else
          match collect_images_loop s s.count [] with
          | none => none
          | some pairs =>
            let len := env.copy_to_user st1.trace
            let st2 := st1.emit (Event.copy_to_user pairs)
            let ret : Int := if len ≠ 0 then -ENODATA else 0
            (snapshot_put env st2 (some sp)).map fun st3 => (ret, pairs.length, st3)

/-- `snapshot_destroy` (snapshot.c:222). -/
def snapshot_destroy (env : Env) (st : State) (id : Nat) : Option (Int × State) :=
  match snapshot_find st.snapshot_heap id st.snapshots with
  | none => none
  | some none => some (-ENODEV, st)
  | some (some sp) =>
    (snapshot_put env { st with snapshots := st.snapshots.erase sp } (some sp)).map
      fun st1 => (0, st1)

/-- The world of `env_ok`, except that `cbt_map_switch` reports an error and
marks the map corrupted, as the spec has it for a snapshot number that would
pass 255. -/
def env_switch_fails : Env :=
  { env_ok with cbt_map_switch := fun _ c => (-EINVAL, { c with is_corrupted := true }) }

/-- An entry of a caller's buffer before `tracker_collect` writes to it. -/
def blank_info : blk_snap_cbt_info :=
  { dev_id := 0, dev_capacity := 0, blk_size := 0, blk_count := 0, snap_number := 0,
    generationId := 0 }

/-- The snapshot 7 of two devices with an image for the first one only. -/
def partial_snapshot : snapshot :=
  { two_snapshot with
    snapimage_array := [some { original_dev_id := 1, image_dev_id := 900 }, none] }

/-- The state `two_state_taken` with the image of device 2 missing. -/
def partial_state : State :=
  { two_state_taken with snapshot_heap := [some partial_snapshot] }

/-- The devices of the `freeze_bdev` calls of a trace, in the order of the
calls. -/
def frozen_devs (evs : List Event) : List Nat :=
  evs.filterMap fun e =>
    match e with
    | Event.freeze_bdev dev => some dev
    | _ => none

/-- The devices of the `thaw_bdev` calls of a trace, in the order of the
calls. -/
def thawed_devs (evs : List Event) : List Nat :=
  evs.filterMap fun e =>
    match e with
    | Event.thaw_bdev dev => some dev
    | _ => none

/-- The device `tracker->diff_area->orig_bdev` of entry `inx` of the snapshot,
the one `snapshot_take` freezes and thaws for that entry; `none` when the
entry is `NULL` or the tracker has no diff area. -/
def entry_bdev (s : snapshot) (st : State) (inx : Nat) : Option Nat :=
  match tracker_entry s st inx with
  | some (some (_, t)) => t.diff_area.map diff_area.orig_bdev
  | _ => none

/-- `quiet st st1`: from `st` to `st1` the trace grew by calls that neither
freeze nor thaw a device. -/
def quiet (st st1 : State) : Prop :=
  ∃ evs, st1.trace = st.trace ++ evs ∧ frozen_devs evs = [] ∧ thawed_devs evs = []

/-! ## diff_io.c

The sub-requests (`struct bio`) that `diff_io_do` builds are values of
`diff_bio`.  `diff_io_do` is followed up to the point where the bios are
submitted; the wait of the synchronous flavour is not part of the embedding.
The completions are then calls of `diff_io_endio`, one per submitted bio, in
any order.  `atomic_t bio_count` is an integer that does not wrap: it counts
bios that exist in memory at the same time. -/

/-- Linux `PAGE_SHIFT`, for pages of 4 KiB. -/
def PAGE_SHIFT : Nat := 12

/-- Linux `PAGE_SECTORS`, as diff_io.c defines it when the kernel does not. -/
def PAGE_SECTORS : Nat := 1 <<< (PAGE_SHIFT - SECTOR_SHIFT)

/-- Linux `BIO_MAX_PAGES`. -/
def BIO_MAX_PAGES : Nat := 256

/-- Linux `BLK_STS_OK`. -/
def BLK_STS_OK : Nat := 0

/-- Linux `EIO`. -/
def EIO : Int := 5

/-- Linux `round_up(x, y)` for a 64-bit `x` and a power of two `y`:
`(((x) - 1) | ((y) - 1)) + 1` in 64-bit arithmetic, where the wrapping
`x - 1` is `2 ^ 64 - 1 + x` modulo `2 ^ 64`. -/
def round_up (x y : Nat) : Nat :=
  ((((2 ^ 64 - 1 + x) % 2 ^ 64) ||| (y - 1)) + 1) % 2 ^ 64

/-- `check_page_aligned` (diff_io.c:110). -/
def check_page_aligned (sector : Nat) : Bool :=
  (sector &&& ((1 <<< (PAGE_SHIFT - SECTOR_SHIFT)) - 1)) == 0

/-- `calc_page_count` (diff_io.c:115); the result is an `unsigned short`. -/
def calc_page_count (sectors : Nat) : Nat :=
  (round_up sectors PAGE_SECTORS / PAGE_SECTORS) % 2 ^ 16

/-- `bio_max_segs` (diff_io.c:121). -/
def bio_max_segs (nr_segs : Nat) : Nat := min nr_segs BIO_MAX_PAGES

/-- How a run of `diff_io_do` ends: it returns, or it reads
`diff_buffer->pages` past its end, or the iteration budget of the embedding
is used up (which the budgets given below exclude). -/
inductive outcome (α : Type) where
  | ok (a : α)
  | fault
  | timeout
  deriving DecidableEq, Repr

/-- The fields of `struct diff_region`. -/
structure diff_region where
  bdev : Nat
  sector : Nat
  count : Nat
  deriving DecidableEq, Repr

/-- The fields of `struct diff_buffer`: `pages` is the array, of `page_count`
entries when the buffer is well formed. -/
structure diff_buffer where
  page_count : Nat
  pages : List Nat
  deriving DecidableEq, Repr

/-- The fields of `struct diff_io`. -/
structure diff_io where
  error : Int
  is_write : Bool
  bio_count : Int
  is_sync_io : Bool
  deriving DecidableEq, Repr

/-- A bio built by `diff_io_do`: its first sector, the number of vectors it
was allocated with, and the pages added to it with their length in bytes. -/
structure diff_bio where
  bi_sector : Nat
  nr_iovecs : Nat
  bvecs : List (Nat × Nat)
  deriving DecidableEq, Repr

/-- What `diff_io_endio` does besides updating the `diff_io`. -/
inductive io_event where
  | complete
  | queue_work
  | bio_put
  deriving DecidableEq, Repr

/-- `diff_io_endio` (diff_io.c:44) for a bio that completed with
`bi_status`. -/
def diff_io_endio (d : diff_io) (bi_status : Nat) : diff_io × List io_event :=
  let d1 : diff_io := if bi_status ≠ BLK_STS_OK then { d with error := - EIO } else d
  let d2 : diff_io := { d1 with bio_count := d1.bio_count - 1 }
  if d2.bio_count = 0 then
    (d2, [if d2.is_sync_io then io_event.complete else io_event.queue_work, io_event.bio_put])
  else (d2, [io_event.bio_put])

/-- The completions of several bios, one `diff_io_endio` after the other,
with the events they produce. -/
def diff_io_endio_all (d : diff_io) : List Nat → diff_io × List io_event
  | [] => (d, [])
  | bi_status :: rest =>
    let r := diff_io_endio d bi_status
    let q := diff_io_endio_all r.1 rest
    (q.1, r.2 ++ q.2)

/-- `diff_io_new` (diff_io.c:64); `none` when `kzalloc` fails.  The structure
comes zeroed. -/
def diff_io_new (kzalloc_ok : Bool) (is_write : Bool) : Option diff_io :=
  if !kzalloc_ok then none
  else some { error := 0, is_write := is_write, bio_count := 0, is_sync_io := false }

/-- `diff_io_new_sync` (diff_io.c:81). -/
def diff_io_new_sync (kzalloc_ok : Bool) (is_write : Bool) : Option diff_io :=
  (diff_io_new kzalloc_ok is_write).map fun d => { d with is_sync_io := true }

/-- `diff_io_new_async` (diff_io.c:94). -/
def diff_io_new_async (kzalloc_ok : Bool) (is_write : Bool) : Option diff_io :=
  (diff_io_new kzalloc_ok is_write).map fun d => { d with is_sync_io := false }

/-- The inner loop `while (offset < portion)` of `diff_io_do`.  The arguments
are the iteration budget, `offset`, the position of `current_page_ptr` in
`pages`, and the pages added so far; the loop is entered with the budget
`portion`, which it cannot use up since every pass adds at least one
sector.  A read of `pages` past its end is a memory fault.
`__bio_add_page` stores the page in the next vector of the bio and does not
look at the number of vectors the bio was allocated with: the page is
appended whatever `nr_iovecs` is, and a bio whose `bvecs` outnumber its
`nr_iovecs` is the record of a write past the vectors of the bio. -/
def add_pages (pages : List Nat) (portion : Nat) :
    Nat → Nat → Nat → List (Nat × Nat) → outcome (Nat × Nat × List (Nat × Nat))
  | 0, offset, idx, bvecs =>
    if offset < portion then outcome.timeout else outcome.ok (offset, idx, bvecs)
  | k + 1, offset, idx, bvecs =>
    if offset < portion then
      let bvec_len_sect := min PAGE_SECTORS (portion - offset)
      let bvec_len := (bvec_len_sect <<< SECTOR_SHIFT) % 2 ^ 32
      match pages[idx]? with
      | none => outcome.fault
      | some page =>
        add_pages pages portion k (offset + bvec_len_sect) (idx + 1) (bvecs ++ [(page, bvec_len)])
    else outcome.ok (offset, idx, bvecs)

/-- The variables of the outer loop of `diff_io_do`. -/
structure build_state where
  processed : Nat
  page_idx : Nat
  bio_list : List diff_bio
  bio_count : Int
  deriving DecidableEq, Repr

/-- The outer loop `while (processed < diff_region->count)` of `diff_io_do`.
`alloc is_nowait n` tells whether `bio_alloc_bioset` succeeds, for the `gfp`
flags that `is_nowait` selects, when `n` bios are already on the list.  The result is `false` when the loop was left with `goto fail`.
The loop is entered with the budget `diff_region->count`, which it cannot
use up since every pass processes at least one sector. -/
def build_bios (alloc : Bool → Nat → Bool) (is_nowait : Bool) (r : diff_region)
    (b : diff_buffer) : Nat → build_state → outcome (Bool × build_state)
  | 0, s => if s.processed < r.count then outcome.timeout else outcome.ok (true, s)
  | k + 1, s =>
    if s.processed < r.count then
      let portion0 := r.count - s.processed
      let nr0 := calc_page_count portion0
      let clip := decide (nr0 > bio_max_segs nr0)
      let nr_iovecs := if clip then bio_max_segs nr0 % 2 ^ 16 else nr0
      let portion := if clip then nr_iovecs * PAGE_SECTORS else portion0
      if !alloc is_nowait s.bio_list.length then outcome.ok (false, s)
      else
        match add_pages b.pages portion portion 0 s.page_idx [] with
        | outcome.fault => outcome.fault
        | outcome.timeout => outcome.timeout
        | outcome.ok (offset, idx, bvecs) =>
          build_bios alloc is_nowait r b k
            { processed := (s.processed + offset) % 2 ^ 64
              page_idx := idx
              bio_list := s.bio_list ++
                [{ bi_sector := (r.sector + s.processed) % 2 ^ 64, nr_iovecs := nr_iovecs,
                   bvecs := bvecs }]
              bio_count := s.bio_count + 1 }
    else outcome.ok (true, s)

/-- `diff_io_do` (diff_io.c:135), up to the submission of the bios.  The
result is the value returned, the `diff_io` and the bios submitted, in the
order of submission.  On `fail` the bios built are put and none is
submitted; `bio_count` keeps the increments made. -/
def diff_io_do (alloc : Bool → Nat → Bool) (d : diff_io) (r : diff_region) (b : diff_buffer)
    (is_nowait : Bool) : outcome (Int × diff_io × List diff_bio) :=
  if !check_page_aligned r.sector then outcome.ok (-EINVAL, d, [])
  else if calc_page_count r.count > b.page_count then outcome.ok (-EINVAL, d, [])
  else
    match build_bios alloc is_nowait r b r.count
        { processed := 0, page_idx := 0, bio_list := [], bio_count := d.bio_count } with
    | outcome.fault => outcome.fault
    | outcome.timeout => outcome.timeout
    | outcome.ok (true, s) => outcome.ok (0, { d with bio_count := s.bio_count }, s.bio_list)
    | outcome.ok (false, s) => outcome.ok (-EAGAIN, { d with bio_count := s.bio_count }, [])

/-- A world in which `bio_alloc_bioset` always succeeds. -/
def alloc_ok : Bool → Nat → Bool := fun _ _ => true

/-- A fresh asynchronous `diff_io` for a read. -/
def async_io : diff_io :=
  { error := 0, is_write := false, bio_count := 0, is_sync_io := false }

/-- A buffer of one page. -/
def one_page_buffer : diff_buffer := { page_count := 1, pages := [0] }

/-- A region of 65536 pages (256 MiB) at sector 0. -/
def huge_region : diff_region := { bdev := 1, sector := 0, count := 65536 * 8 }

/-- An empty region at sector 0. -/
def empty_region : diff_region := { bdev := 1, sector := 0, count := 0 }

/-- A region of 65537 pages at sector 0. -/
def long_region : diff_region := { bdev := 1, sector := 0, count := 65537 * 8 }

/-- A buffer of 65537 pages, as many as `long_region` needs. -/
def long_buffer : diff_buffer := { page_count := 65537, pages := List.range 65537 }

/-- A region of 257 pages at sector 0, one page more than a bio may hold. -/
def two_bio_region : diff_region := { bdev := 1, sector := 0, count := 257 * 8 }

/-- A buffer of 257 pages, as many as `two_bio_region` needs. -/
def two_bio_buffer : diff_buffer := { page_count := 257, pages := List.range 257 }

/-- The two bios of `two_bio_region`: one of 256 pages and one of one page. -/
def two_bios : List diff_bio :=
  [{ bi_sector := 0, nr_iovecs := 256, bvecs := (List.range 256).map fun i => (i, 4096) },
   { bi_sector := 2048, nr_iovecs := 1, bvecs := [(256, 4096)] }]

/-- A buffer of 65536 pages, as many as `huge_region` needs. -/
def huge_buffer : diff_buffer := { page_count := 65536, pages := List.range 65536 }

/-! ## snapshot.c: snapshot_done -/

/-- The loop of `snapshot_done` (snapshot.c:140):
`while ((snap = list_first_entry_or_null(...))) { list_del(&snapshot->link);
snapshot_put(snapshot); }`.  The source names the variable `snap` in the
condition and `snapshot` in the body and declares only `snapshot`; the two
are read as the same variable, and the list as `&snapshots` with the member
`link`.  The loop is entered with the length of the list as its budget:
every pass takes one entry off the list. -/
def snapshot_done_loop (env : Env) : Nat → State → Option State
  | 0, st => some st
  | k + 1, st =>
    match st.snapshots with
    | [] => some st
    | sp :: _ =>
      match snapshot_put env { st with snapshots := st.snapshots.erase sp } (some sp) with
      | none => none
      | some st1 => snapshot_done_loop env k st1

/-- `snapshot_done` (snapshot.c:140). -/
def snapshot_done (env : Env) (st : State) : Option State :=
  snapshot_done_loop env st.snapshots.length st

/-- The state after the first of two `snapshot_new(1)` in `env_ok`, starting
with no snapshot. -/
def one_created : State := (snapshot_new env_ok empty_state 1).2

/-- The state after the second of two `snapshot_new(1)` in `env_ok`. -/
def two_created : State := (snapshot_new env_ok one_created 1).2

/-! ## snapdata_collect.c -/

/-- The `SUCCESS` of the module. -/
def SUCCESS : Int := 0

/-- The `range_t` of the module: `ofs` and `cnt`, both `sector_t`. -/
structure range_t where
  ofs : Nat
  cnt : Nat
  deriving DecidableEq, Repr

/-- Modelled from the spec: `rangelist_add` is not part of these sources.  A
call that succeeds appends a copy of the range at the tail of the list; a
call that fails leaves the list as it was.  `err l rg` is the result of the
call. -/
def rangelist_add (err : List range_t → range_t → Int) (l : List range_t) (rg : range_t) :
    Int × List range_t :=
  if err l rg = SUCCESS then (SUCCESS, l ++ [rg]) else (err l rg, l)

/-- The variables of `page_array_convert2rangelist` that its loop changes,
and the rangelist. -/
structure convert_state where
  res : Int
  rg : range_t
  rangelist : List range_t
  deriving DecidableEq, Repr

/-- The loop `while (index < length)` of `page_array_convert2rangelist`
(snapdata_collect.c:166), for a 64-bit `size_t`.  `bit_get index` is the
result of `page_array_bit_get(changes, index, &bit)` and the bit it stores.
The third argument is the number of indices still to visit, so the current
index is `length` minus it; the loop is entered with `length`.  A failed
`page_array_bit_get` leaves the loop; a failed `rangelist_add` does not. -/
def convert_loop (bit_get : Nat → Int × Bool) (err : List range_t → range_t → Int)
    (start_index length : Nat) : Nat → convert_state → convert_state
  | 0, s => s
  | k + 1, s =>
    let index := length - (k + 1)
    if (bit_get index).1 ≠ SUCCESS then { s with res := (bit_get index).1 }
    else if (bit_get index).2 then
      let ofs := if s.rg.cnt = 0 then (start_index + index) % 2 ^ 64 else s.rg.ofs
      convert_loop bit_get err start_index length k
        { res := (bit_get index).1
          rg := { ofs := ofs, cnt := (s.rg.cnt + 1) % 2 ^ 64 }
          rangelist := s.rangelist }
    else if s.rg.cnt = 0 then
      convert_loop bit_get err start_index length k { s with res := (bit_get index).1 }
    else
      convert_loop bit_get err start_index length k
        { res := (rangelist_add err s.rangelist s.rg).1
          rg := { s.rg with cnt := 0 }
          rangelist := (rangelist_add err s.rangelist s.rg).2 }

/-- `page_array_convert2rangelist` (snapdata_collect.c:160).  The result is
the value returned and the rangelist. -/
def page_array_convert2rangelist (bit_get : Nat → Int × Bool)
    (err : List range_t → range_t → Int) (rangelist : List range_t)
    (start_index length : Nat) : Int × List range_t :=
  let s := convert_loop bit_get err start_index length length
    { res := SUCCESS, rg := { ofs := 0, cnt := 0 }, rangelist := rangelist }
  if s.res = SUCCESS ∧ s.rg.cnt ≠ 0 then rangelist_add err s.rangelist s.rg
  else (s.res, s.rangelist)

/-- A bit array whose bit 0 is set and whose other bits are clear; every
`page_array_bit_get` succeeds. -/
def bits_first : Nat → Int × Bool := fun index => (SUCCESS, decide (index = 0))

/-- A world in which `rangelist_add` fails for want of memory. -/
def add_fails : List range_t → range_t → Int := fun _ _ => -ENOMEM

/-- A world in which `rangelist_add` succeeds. -/
def add_ok : List range_t → range_t → Int := fun _ _ => SUCCESS

/-! # Theorems -/

/-! ## Heap and state lemmas -/

theorem heap_get_some_iff {α : Type} {h : List (Option α)} {p : Nat} {a : α} :
    heap_get h p = some a ↔ h[p]? = some (some a) := by
  unfold heap_get
  constructor
  · intro hp
    split at hp
    · rename_i b hb
      simp only [Option.some.injEq] at hp
      rw [hb, hp]
    · simp at hp
  · intro hp
    simp [hp]

theorem heap_get_lt {α : Type} {h : List (Option α)} {p : Nat} {a : α}
    (hp : heap_get h p = some a) : p < h.length := by
  rw [heap_get_some_iff] at hp
  exact (List.getElem?_eq_some.mp hp).1

theorem heap_get_set_self {α : Type} {h : List (Option α)} {p : Nat} (x : α)
    (hp : p < h.length) : heap_get (h.set p (some x)) p = some x := by
  rw [heap_get_some_iff, List.getElem?_set_self hp]

theorem heap_get_set_other {α : Type} {h : List (Option α)} {p q : Nat} (x : Option α)
    (hne : p ≠ q) : heap_get (h.set p x) q = heap_get h q := by
  unfold heap_get
  rw [List.getElem?_set_ne hne]

theorem heap_set_self {α : Type} {h : List (Option α)} {p : Nat} {a : α}
    (hp : heap_get h p = some a) : h.set p (some a) = h := by
  have hlt := heap_get_lt hp
  rw [heap_get_some_iff] at hp
  apply List.ext_getElem?
  intro i
  by_cases hi : p = i
  · subst hi
    rw [List.getElem?_set_self hlt, hp]
  · rw [List.getElem?_set_ne hi]

@[simp] theorem emit_tracker_heap (st : State) (e : Event) :
    (st.emit e).tracker_heap = st.tracker_heap := rfl

@[simp] theorem emit_trace (st : State) (e : Event) :
    (st.emit e).trace = st.trace ++ [e] := rfl

@[simp] theorem emit_snapshot_heap (st : State) (e : Event) :
    (st.emit e).snapshot_heap = st.snapshot_heap := rfl

@[simp] theorem emit_trackers (st : State) (e : Event) :
    (st.emit e).trackers = st.trackers := rfl

@[simp] theorem emit_snapshots (st : State) (e : Event) :
    (st.emit e).snapshots = st.snapshots := rfl

@[simp] theorem set_tracker_tracker_heap (st : State) (p : Nat) (t : tracker) :
    (st.set_tracker p t).tracker_heap = st.tracker_heap.set p (some t) := rfl

@[simp] theorem set_tracker_trace (st : State) (p : Nat) (t : tracker) :
    (st.set_tracker p t).trace = st.trace := rfl

@[simp] theorem set_tracker_snapshot_heap (st : State) (p : Nat) (t : tracker) :
    (st.set_tracker p t).snapshot_heap = st.snapshot_heap := rfl

@[simp] theorem set_snapshot_tracker_heap (st : State) (p : Nat) (s : snapshot) :
    (st.set_snapshot p s).tracker_heap = st.tracker_heap := rfl

@[simp] theorem set_snapshot_trace (st : State) (p : Nat) (s : snapshot) :
    (st.set_snapshot p s).trace = st.trace := rfl

@[simp] theorem set_snapshot_snapshot_heap (st : State) (p : Nat) (s : snapshot) :
    (st.set_snapshot p s).snapshot_heap = st.snapshot_heap.set p (some s) := rfl

/-! ## Loop rules -/

theorem for_loop_rule {β : Type} (count : Nat) (body : Nat → State → Option (Option β × State))
    (I : Nat → State → Prop) (Q : β → State → Prop)
    (step : ∀ i st r st1, i < count → I i st → body i st = some (r, st1) →
      (r = none → I (i + 1) st1) ∧ (∀ b, r = some b → Q b st1)) :
    ∀ k st r st1, k ≤ count → I (count - k) st → for_loop count body k st = some (r, st1) →
      (r = none → I count st1) ∧ (∀ b, r = some b → Q b st1) := by
  intro k
  induction k with
  | zero =>
    intro st r st1 _ hI h
    simp only [for_loop, Option.some.injEq, Prod.mk.injEq] at h
    obtain ⟨hr, hst⟩ := h
    subst hr hst
    exact ⟨fun _ => by simpa using hI, fun b hb => by simp at hb⟩
  | succ k ih =>
    intro st r st1 hk hI h
    simp only [for_loop] at h
    cases hb : body (count - (k + 1)) st with
    | none => simp [hb] at h
    | some res =>
      obtain ⟨r0, st0⟩ := res
      have hs := step (count - (k + 1)) st r0 st0 (by omega) hI hb
      cases r0 with
      | some b =>
        simp only [hb, Option.some.injEq, Prod.mk.injEq] at h
        obtain ⟨hr, hst⟩ := h
        subst hr hst
        exact ⟨fun hn => by simp at hn, fun b1 hb1 => by
          have := hs.2 b rfl
          simp only [Option.some.injEq] at hb1
          subst hb1
          exact this⟩
      | none =>
        simp only [hb] at h
        have hI1 := hs.1 rfl
        have he : count - (k + 1) + 1 = count - k := by omega
        rw [he] at hI1
        exact ih st0 r st1 (by omega) hI1 h

theorem for_each_rule (count : Nat) (body : Nat → State → Option State)
    (I : Nat → State → Prop)
    (step : ∀ i st st1, i < count → I i st → body i st = some st1 → I (i + 1) st1) :
    ∀ k st st1, k ≤ count → I (count - k) st → for_each count body k st = some st1 →
      I count st1 := by
  intro k
  induction k with
  | zero =>
    intro st st1 _ hI h
    simp only [for_each, Option.some.injEq] at h
    subst h
    simpa using hI
  | succ k ih =>
    intro st st1 hk hI h
    simp only [for_each] at h
    cases hb : body (count - (k + 1)) st with
    | none => simp [hb] at h
    | some st0 =>
      simp only [hb] at h
      have hI1 := step (count - (k + 1)) st st0 (by omega) hI hb
      have he : count - (k + 1) + 1 = count - k := by omega
      rw [he] at hI1
      exact ih st0 st1 (by omega) hI1 h

/-! ## What a step keeps -/

theorem keeps_refl (st : State) : keeps st st :=
  ⟨⟨[], by simp⟩, fun _ t ht => ⟨t, ht, rfl, rfl, id⟩, fun _ x hx => ⟨x, hx, rfl⟩⟩

theorem keeps_trans {a b c : State} (hab : keeps a b) (hbc : keeps b c) : keeps a c := by
  obtain ⟨⟨e1, h1⟩, f1, g1⟩ := hab
  obtain ⟨⟨e2, h2⟩, f2, g2⟩ := hbc
  refine ⟨⟨e1 ++ e2, by rw [h2, h1, List.append_assoc]⟩, ?_, ?_⟩
  · intro p t ht
    obtain ⟨t1, ht1, hd1, ha1, hb1⟩ := f1 p t ht
    obtain ⟨t2, ht2, hd2, ha2, hb2⟩ := f2 p t1 ht1
    exact ⟨t2, ht2, hd2.trans hd1, ha2.trans ha1, fun h => hb2 (hb1 h)⟩
  · intro sp x hx
    obtain ⟨x1, hx1, hk1⟩ := g1 sp x hx
    obtain ⟨x2, hx2, hk2⟩ := g2 sp x1 hx1
    exact ⟨x2, hx2, hk2.trans hk1⟩

theorem keeps_of_heap_eq {st st1 : State} (evs : List Event)
    (hh : st1.tracker_heap = st.tracker_heap) (hsh : st1.snapshot_heap = st.snapshot_heap)
    (ht : st1.trace = st.trace ++ evs) :
    keeps st st1 :=
  ⟨⟨evs, ht⟩, fun _ t h => ⟨t, by rw [hh]; exact h, rfl, rfl, id⟩,
    fun _ x hx => ⟨x, by rw [hsh]; exact hx, rfl⟩⟩

theorem keeps_emit (st : State) (e : Event) : keeps st (st.emit e) :=
  keeps_of_heap_eq [e] rfl rfl rfl

theorem keeps_set_tracker {st : State} {p : Nat} {t t1 : tracker} (evs : List Event)
    {st1 : State} (hp : heap_get st.tracker_heap p = some t)
    (hh : st1.tracker_heap = st.tracker_heap.set p (some t1))
    (hsh : st1.snapshot_heap = st.snapshot_heap)
    (htr : st1.trace = st.trace ++ evs)
    (hd : t1.dev_id = t.dev_id) (ha : t1.diff_area = t.diff_area)
    (hb : t.is_busy_with_snapshot = true → t1.is_busy_with_snapshot = true) :
    keeps st st1 := by
  refine ⟨⟨evs, htr⟩, ?_, fun _ x hx => ⟨x, by rw [hsh]; exact hx, rfl⟩⟩
  intro q u hu
  by_cases hq : p = q
  · subst hq
    rw [hp] at hu
    simp only [Option.some.injEq] at hu
    subst hu
    exact ⟨t1, by rw [hh]; exact heap_get_set_self t1 (heap_get_lt hp), hd, ha, hb⟩
  · exact ⟨u, by rw [hh, heap_get_set_other _ hq]; exact hu, rfl, rfl, id⟩

theorem keeps_set_snapshot {st : State} {sp : Nat} (x x1 : snapshot) (evs : List Event)
    {st1 : State} (hp : heap_get st.snapshot_heap sp = some x)
    (hh : st1.tracker_heap = st.tracker_heap)
    (hsh : st1.snapshot_heap = st.snapshot_heap.set sp (some x1))
    (htr : st1.trace = st.trace ++ evs)
    (hk : x1.kref = x.kref) :
    keeps st st1 := by
  refine ⟨⟨evs, htr⟩, fun _ t h => ⟨t, by rw [hh]; exact h, rfl, rfl, id⟩, ?_⟩
  intro q u hu
  by_cases hq : sp = q
  · subst hq
    rw [hp] at hu
    simp only [Option.some.injEq] at hu
    subst hu
    exact ⟨x1, by rw [hsh]; exact heap_get_set_self x1 (heap_get_lt hp), hk⟩
  · exact ⟨u, by rw [hsh, heap_get_set_other _ hq]; exact hu, rfl⟩

theorem tracker_built_keeps {tr0 : List Event} {st st1 : State} {p : Nat}
    (h : tracker_built tr0 st p) (hk : keeps st st1) : tracker_built tr0 st1 p := by
  obtain ⟨t, da, evs, ht, hda, htr, hmem⟩ := h
  obtain ⟨⟨e1, h1⟩, f1, _⟩ := hk
  obtain ⟨t1, ht1, hd1, ha1, _⟩ := f1 p t ht
  refine ⟨t1, da, evs ++ e1, ht1, by rw [ha1, hda], by rw [h1, htr, List.append_assoc], ?_⟩
  rw [hd1]
  exact List.mem_append_left _ hmem

theorem tracker_armed_keeps {st st1 : State} {p : Nat}
    (h : tracker_armed st p) (hk : keeps st st1) : tracker_armed st1 p := by
  obtain ⟨t, ht, hb⟩ := h
  obtain ⟨t1, ht1, _, _, hb1⟩ := hk.2.1 p t ht
  exact ⟨t1, ht1, hb1 hb⟩

theorem tracker_entry_some {s : snapshot} {st : State} {inx p : Nat} {t : tracker}
    (h : tracker_entry s st inx = some (some (p, t))) :
    s.tracker_array[inx]? = some (some p) ∧ heap_get st.tracker_heap p = some t := by
  unfold tracker_entry at h
  split at h
  · simp at h
  · simp at h
  · rename_i q hq
    split at h
    · simp at h
    · rename_i u hu
      simp only [Option.some.injEq, Prod.mk.injEq] at h
      obtain ⟨h1, h2⟩ := h
      subst h1 h2
      exact ⟨hq, hu⟩

theorem tracker_entry_none {s : snapshot} {st : State} {inx : Nat}
    (h : tracker_entry s st inx = some none) : s.tracker_array[inx]? = some none := by
  unfold tracker_entry at h
  split at h
  · simp at h
  · assumption
  · split at h <;> simp at h

/-! ## The steps of `snapshot_take` -/

theorem freeze_tracker_keeps {env : Env} {st st1 : State} {t : tracker}
    (h : freeze_tracker env st t = some st1) : keeps st st1 := by
  unfold freeze_tracker at h
  split at h
  · simp at h
  · split at h <;>
    · simp only [Option.some.injEq] at h
      subst h
      exact keeps_emit _ _

theorem thaw_tracker_keeps {env : Env} {st st1 : State} {t : tracker}
    (h : thaw_tracker env st t = some st1) : keeps st st1 := by
  unfold thaw_tracker at h
  split at h
  · simp at h
  · split at h <;>
    · simp only [Option.some.injEq] at h
      subst h
      exact keeps_emit _ _

theorem freeze_entry_keeps {env : Env} {s : snapshot} {i : Nat} {st st1 : State}
    (h : freeze_entry env s i st = some st1) : keeps st st1 := by
  unfold freeze_entry at h
  split at h
  · simp at h
  · simp only [Option.some.injEq] at h
    subst h
    exact keeps_refl _
  · exact freeze_tracker_keeps h

theorem tracker_take_snapshot_keeps {env : Env} {st st1 : State} {p : Nat} {ret : Int}
    (h : tracker_take_snapshot env st p = some (ret, st1)) :
    keeps st st1 ∧ tracker_armed st1 p := by
  unfold tracker_take_snapshot at h
  split at h
  · simp at h
  · rename_i t ht
    split at h
    · rename_i cm da hcm hda
      dsimp only at h
      split at h <;>
      · simp only [Option.some.injEq, Prod.mk.injEq] at h
        obtain ⟨_, hst⟩ := h
        subst hst
        refine ⟨keeps_set_tracker [_] ht rfl rfl rfl rfl rfl (fun _ => rfl), ?_⟩
        exact ⟨_, heap_get_set_self _ (heap_get_lt ht), rfl⟩
    · simp at h

theorem take_tracker_step {env : Env} {s : snapshot} {i : Nat} {st st1 : State}
    {r : Option (Int × Nat)} (h : take_tracker env s i st = some (r, st1)) :
    keeps st st1 ∧
    (r = none → ∀ q, s.tracker_array[i]? = some (some q) → tracker_armed st1 q) ∧
    (∀ b, r = some b → b.1 ≠ 0) := by
  unfold take_tracker at h
  split at h
  · simp at h
  · rename_i hn
    simp only [Option.some.injEq, Prod.mk.injEq] at h
    obtain ⟨hr, hst⟩ := h
    subst hr hst
    exact ⟨keeps_refl _, fun _ q hq => by rw [hn] at hq; simp at hq, fun b hb => by simp at hb⟩
  · rename_i p hp
    split at h
    · simp at h
    · rename_i ret st2 hts
      have hk := tracker_take_snapshot_keeps hts
      split at h
      · rename_i hret
        simp only [Option.some.injEq, Prod.mk.injEq] at h
        obtain ⟨hr, hst⟩ := h
        subst hr hst
        exact ⟨hk.1, fun hn => by simp at hn, fun b hb => by
          simp only [Option.some.injEq] at hb
          subst hb
          exact hret⟩
      · simp only [Option.some.injEq, Prod.mk.injEq] at h
        obtain ⟨hr, hst⟩ := h
        subst hr hst
        refine ⟨hk.1, fun _ q hq => ?_, fun b hb => by simp at hb⟩
        rw [hp] at hq
        simp only [Option.some.injEq] at hq
        subst hq
        exact hk.2

theorem take_thaw_keeps {env : Env} {s : snapshot} {i : Nat} {st st1 : State}
    {r : Option Int} (h : take_thaw env s i st = some (r, st1)) : keeps st st1 := by
  unfold take_thaw at h
  split at h
  · simp at h
  · simp only [Option.some.injEq, Prod.mk.injEq] at h
    obtain ⟨_, hst⟩ := h
    subst hst
    exact keeps_refl _
  · split at h
    · simp at h
    · rename_i st2 hth
      split at h <;>
      · simp only [Option.some.injEq, Prod.mk.injEq] at h
        obtain ⟨_, hst⟩ := h
        subst hst
        exact thaw_tracker_keeps hth

theorem take_image_step {env : Env} {s : snapshot} {sp i : Nat} {st st1 : State}
    {r : Option Int} (h : take_image env s sp i st = some (r, st1)) :
    keeps st st1 ∧
    (r = none → ∃ q, s.tracker_array[i]? = some (some q)) ∧
    (∀ b, r = some b → b ≠ 0) := by
  unfold take_image at h
  split at h
  · simp at h
  · simp at h
  · rename_i p t hent
    have hq := (tracker_entry_some hent).1
    split at h
    · rename_i e he
      simp only [Option.some.injEq, Prod.mk.injEq] at h
      obtain ⟨hr, hst⟩ := h
      subst hr hst
      refine ⟨keeps_emit _ _, fun hn => by simp at hn, fun b hb => ?_⟩
      simp only [Option.some.injEq] at hb
      subst hb
      exact ne_of_lt e.property.2
    · rename_i image himg
      simp only at h
      split at h
      · simp at h
      · rename_i cur hcur
        split at h
        · simp only [Option.some.injEq, Prod.mk.injEq] at h
          obtain ⟨hr, hst⟩ := h
          subst hr hst
          refine ⟨?_, fun _ => ⟨p, hq⟩, fun b hb => by simp at hb⟩
          exact keeps_set_snapshot cur _ [_] (by simpa using hcur) rfl rfl rfl rfl
        · simp at h

theorem take_diff_area_step {env : Env} {s : snapshot} {i : Nat} {st st1 : State}
    {r : Option (Int × Nat)} (tr0 : List Event)
    (h : take_diff_area env s i st = some (r, st1)) (hpre : ∃ evs, st.trace = tr0 ++ evs) :
    (∃ evs, st1.trace = tr0 ++ evs) ∧
    st1.snapshot_heap = st.snapshot_heap ∧
    (∀ p, tracker_built tr0 st p → tracker_built tr0 st1 p) ∧
    (r = none → ∀ q, s.tracker_array[i]? = some (some q) → tracker_built tr0 st1 q) ∧
    (∀ b, r = some b → b.1 ≠ 0) := by
  obtain ⟨evs0, hevs0⟩ := hpre
  unfold take_diff_area at h
  split at h
  · simp at h
  · rename_i hent
    have hn := tracker_entry_none hent
    simp only [Option.some.injEq, Prod.mk.injEq] at h
    obtain ⟨hr, hst⟩ := h
    subst hr hst
    exact ⟨⟨evs0, hevs0⟩, rfl, fun _ hp => hp,
      fun _ q hq => by rw [hn] at hq; simp at hq, fun b hb => by simp at hb⟩
  · rename_i p t hent
    obtain ⟨hq, ht⟩ := tracker_entry_some hent
    split at h
    · rename_i e he
      simp only [Option.some.injEq, Prod.mk.injEq] at h
      obtain ⟨hr, hst⟩ := h
      subst hr hst
      refine ⟨⟨evs0 ++ [_], by rw [emit_trace, hevs0, List.append_assoc]⟩, rfl,
        fun p hp => tracker_built_keeps hp (keeps_emit _ _),
        fun hn => by simp at hn, fun b hb => ?_⟩
      simp only [Option.some.injEq] at hb
      subst hb
      exact ne_of_lt e.property.2
    · rename_i da hda
      simp only [Option.some.injEq, Prod.mk.injEq] at h
      obtain ⟨hr, hst⟩ := h
      subst hr hst
      have hnew : tracker_built tr0
          ((st.emit (Event.diff_area_new t.dev_id (some da))).set_tracker p
            { t with diff_area := some da }) p := by
        refine ⟨{ t with diff_area := some da }, da, evs0 ++ [Event.diff_area_new t.dev_id (some da)],
          ?_, rfl, ?_, ?_⟩
        · exact heap_get_set_self _ (heap_get_lt ht)
        · rw [set_tracker_trace, emit_trace, hevs0, List.append_assoc]
        · simp
      refine ⟨⟨evs0 ++ [_], by rw [set_tracker_trace, emit_trace, hevs0, List.append_assoc]⟩,
        rfl, ?_, ?_, fun b hb => by simp at hb⟩
      · intro q hb
        by_cases hpq : p = q
        · subst hpq
          exact hnew
        · obtain ⟨u, db, evs, hu, hdb, htr, hmem⟩ := hb
          refine ⟨u, db, evs ++ [Event.diff_area_new t.dev_id (some da)], ?_, hdb, ?_,
            List.mem_append_left _ hmem⟩
          · rw [set_tracker_tracker_heap, emit_tracker_heap, heap_get_set_other _ hpq]
            exact hu
          · rw [set_tracker_trace, emit_trace, htr, List.append_assoc]
      · intro _ q hq1
        rw [hq] at hq1
        simp only [Option.some.injEq] at hq1
        subst hq1
        exact hnew

/-! ## The loops of `snapshot_take` -/

theorem take_diff_area_loop {env : Env} {s : snapshot} {st st1 : State}
    {r : Option (Int × Nat)}
    (h : for_loop s.count (take_diff_area env s) s.count st = some (r, st1)) :
    (r = none →
      st1.snapshot_heap = st.snapshot_heap ∧
      ∀ j, j < s.count → ∀ p, s.tracker_array[j]? = some (some p) →
        tracker_built st.trace st1 p) ∧
    (∀ b, r = some b → b.1 ≠ 0) := by
  have key := for_loop_rule s.count (take_diff_area env s)
    (fun i x => (∃ evs, x.trace = st.trace ++ evs) ∧ x.snapshot_heap = st.snapshot_heap ∧
      ∀ j, j < i → ∀ p, s.tracker_array[j]? = some (some p) → tracker_built st.trace x p)
    (fun b _ => b.1 ≠ 0)
    (by
      intro i x r0 x1 _ hI hb
      obtain ⟨hpre, hsh, hbuilt⟩ := hI
      obtain ⟨h1, h2, h3, h4, h5⟩ := take_diff_area_step st.trace hb hpre
      refine ⟨fun hr => ⟨h1, h2.trans hsh, ?_⟩, h5⟩
      intro j hj p hp
      by_cases hji : j = i
      · subst hji
        exact h4 hr p hp
      · exact h3 p (hbuilt j (by omega) p hp))
    s.count st r st1 (le_refl _)
    (by
      refine ⟨⟨[], by simp⟩, rfl, ?_⟩
      intro j hj
      omega)
    h
  exact ⟨fun hr => ⟨(key.1 hr).2.1, (key.1 hr).2.2⟩, key.2⟩

theorem freeze_loop_keeps {env : Env} {s : snapshot} {st st1 : State}
    (h : for_each s.count (freeze_entry env s) s.count st = some st1) : keeps st st1 :=
  for_each_rule s.count (freeze_entry env s) (fun _ x => keeps st x)
    (fun _ _ _ _ hI hb => keeps_trans hI (freeze_entry_keeps hb))
    s.count st st1 (le_refl _) (keeps_refl _) h

theorem take_tracker_loop {env : Env} {s : snapshot} {st st1 : State}
    {r : Option (Int × Nat)}
    (h : for_loop s.count (take_tracker env s) s.count st = some (r, st1)) :
    (r = none →
      keeps st st1 ∧
      ∀ j, j < s.count → ∀ p, s.tracker_array[j]? = some (some p) → tracker_armed st1 p) ∧
    (∀ b, r = some b → b.1 ≠ 0) := by
  have key := for_loop_rule s.count (take_tracker env s)
    (fun i x => keeps st x ∧
      ∀ j, j < i → ∀ p, s.tracker_array[j]? = some (some p) → tracker_armed x p)
    (fun b _ => b.1 ≠ 0)
    (by
      intro i x r0 x1 _ hI hb
      obtain ⟨hk, harmed⟩ := hI
      obtain ⟨h1, h2, h3⟩ := take_tracker_step hb
      refine ⟨fun hr => ⟨keeps_trans hk h1, ?_⟩, h3⟩
      intro j hj p hp
      by_cases hji : j = i
      · subst hji
        exact h2 hr p hp
      · exact tracker_armed_keeps (harmed j (by omega) p hp) h1)
    s.count st r st1 (le_refl _)
    (by
      refine ⟨keeps_refl _, ?_⟩
      intro j hj
      omega)
    h
  exact key

theorem take_thaw_loop_keeps {env : Env} {s : snapshot} {st st1 : State} {r : Option Int}
    (h : for_loop s.count (take_thaw env s) s.count st = some (r, st1)) : keeps st st1 := by
  have key := for_loop_rule s.count (take_thaw env s) (fun _ x => keeps st x)
    (fun _ x => keeps st x)
    (fun _ _ _ _ _ hI hb =>
      ⟨fun _ => keeps_trans hI (take_thaw_keeps hb), fun _ _ => keeps_trans hI (take_thaw_keeps hb)⟩)
    s.count st r st1 (le_refl _) (keeps_refl _) h
  cases r with
  | none => exact key.1 rfl
  | some b => exact key.2 b rfl

theorem take_image_loop {env : Env} {s : snapshot} {sp : Nat} {st st1 : State}
    {r : Option Int}
    (h : for_loop s.count (take_image env s sp) s.count st = some (r, st1)) :
    (r = none →
      keeps st st1 ∧ ∀ j, j < s.count → ∃ q, s.tracker_array[j]? = some (some q)) ∧
    (∀ b, r = some b → b ≠ 0) := by
  have key := for_loop_rule s.count (take_image env s sp)
    (fun i x => keeps st x ∧ ∀ j, j < i → ∃ q, s.tracker_array[j]? = some (some q))
    (fun b _ => b ≠ 0)
    (by
      intro i x r0 x1 _ hI hb
      obtain ⟨hk, hall⟩ := hI
      obtain ⟨h1, h2, h3⟩ := take_image_step hb
      refine ⟨fun hr => ⟨keeps_trans hk h1, ?_⟩, h3⟩
      intro j hj
      by_cases hji : j = i
      · subst hji
        exact h2 hr
      · exact hall j (by omega))
    s.count st r st1 (le_refl _)
    (by
      refine ⟨keeps_refl _, ?_⟩
      intro j hj
      omega)
    h
  exact key

theorem take_steps_ok {env : Env} {sp : Nat} {s : snapshot} {st st1 : State}
    (h : take_steps env sp s st = some (0, st1)) :
    (∀ x, heap_get st.snapshot_heap sp = some x →
      ∃ x1, heap_get st1.snapshot_heap sp = some x1 ∧ x1.kref = x.kref) ∧
    ∀ j, j < s.count → ∃ p, s.tracker_array[j]? = some (some p) ∧
      tracker_built st.trace st1 p ∧ tracker_armed st1 p := by
  unfold take_steps at h
  split at h
  · simp at h
  · rename_i ret inx sta h1
    have hne := (take_diff_area_loop h1).2 (ret, inx) rfl
    cases hf : take_fail s inx sta with
    | none => simp [hf] at h
    | some stb =>
      simp only [hf, Option.map_some', Option.some.injEq, Prod.mk.injEq] at h
      exact absurd h.1 hne
  · rename_i sta h1
    obtain ⟨hsh1, hbuilt⟩ := (take_diff_area_loop h1).1 rfl
    split at h
    · simp at h
    · rename_i stb h2
      have hk2 := freeze_loop_keeps h2
      split at h
      · simp at h
      · rename_i ret inx stc h3
        have hne := (take_tracker_loop h3).2 (ret, inx) rfl
        cases hf : take_fail s inx stc with
        | none => simp [hf] at h
        | some std =>
          simp only [hf, Option.map_some', Option.some.injEq, Prod.mk.injEq] at h
          exact absurd h.1 hne
      · rename_i stc h3
        obtain ⟨hk3, harmed⟩ := (take_tracker_loop h3).1 rfl
        split at h
        · simp at h
        · rename_i r4 std h4
          have hk4 := take_thaw_loop_keeps h4
          split at h
          · simp at h
          · rename_i ret ste h5
            have hne := (take_image_loop h5).2 ret rfl
            simp only [Option.some.injEq, Prod.mk.injEq] at h
            exact absurd h.1 hne
          · rename_i ste h5
            obtain ⟨hk5, hall⟩ := (take_image_loop h5).1 rfl
            simp only [Option.some.injEq, Prod.mk.injEq] at h
            obtain ⟨_, hst⟩ := h
            subst hst
            have hkb : keeps sta ste := keeps_trans hk2 (keeps_trans hk3 (keeps_trans hk4 hk5))
            refine ⟨?_, ?_⟩
            · intro x hx
              rw [← hsh1] at hx
              exact hkb.2.2 sp x hx
            · intro j hj
              obtain ⟨p, hp⟩ := hall j hj
              exact ⟨p, hp, tracker_built_keeps (hbuilt j hj p hp) hkb,
                tracker_armed_keeps (harmed j hj p hp) (keeps_trans hk4 hk5)⟩

/-! ## The write filter -/

/-- C1: `tracker_submit_bio_cb` answers `FLT_ST_COMPLETE` exactly when the bio
is a write, `cbt_map_set` returned 0, the tracker is busy with a snapshot and
`diff_area_copy` returned `-EAGAIN`; then the calls made are `cbt_map_set`,
`diff_area_copy` and `bio_wouldblock_error` on this bio.  In every other case
it answers `FLT_ST_PASS` and makes no call of `bio_wouldblock_error`. -/
theorem tracker_submit_bio_cb_complete_iff (env : Env) (trace : List Event) (b : bio)
    (ctx : tracker) :
    (((tracker_submit_bio_cb env trace b ctx).1 = flt_st.FLT_ST_COMPLETE) ↔
      (op_is_write (bio_op b) = true ∧
        env.cbt_map_set trace ctx.cbt_map b.bi_sector (b.bi_size >>> 9) = 0 ∧
        ctx.is_busy_with_snapshot = true ∧
        env.diff_area_copy (trace ++ [Event.cbt_map_set b.bi_sector (b.bi_size >>> 9)])
          ctx.diff_area b.bi_sector (b.bi_size >>> 9) ((b.bi_opf &&& env.REQ_NOWAIT) != 0)
          = -EAGAIN)) ∧
    ((tracker_submit_bio_cb env trace b ctx).1 = flt_st.FLT_ST_COMPLETE →
      (tracker_submit_bio_cb env trace b ctx).2 =
        trace ++ [Event.cbt_map_set b.bi_sector (b.bi_size >>> 9),
          Event.diff_area_copy ctx.diff_area b.bi_sector (b.bi_size >>> 9)
            ((b.bi_opf &&& env.REQ_NOWAIT) != 0),
          Event.bio_wouldblock_error b]) ∧
    ((tracker_submit_bio_cb env trace b ctx).1 ≠ flt_st.FLT_ST_COMPLETE →
      (tracker_submit_bio_cb env trace b ctx).1 = flt_st.FLT_ST_PASS ∧
      ∃ evs, (tracker_submit_bio_cb env trace b ctx).2 = trace ++ evs ∧
        ∀ b1, Event.bio_wouldblock_error b1 ∉ evs) := by
  unfold tracker_submit_bio_cb
  simp only [SECTOR_SHIFT]
  by_cases hw : op_is_write (bio_op b) = true
  · by_cases hs : env.cbt_map_set trace ctx.cbt_map b.bi_sector (b.bi_size >>> 9) = 0
    · by_cases ha : ctx.is_busy_with_snapshot = true
      · by_cases h0 : env.diff_area_copy (trace ++ [Event.cbt_map_set b.bi_sector (b.bi_size >>> 9)])
          ctx.diff_area b.bi_sector (b.bi_size >>> 9) ((b.bi_opf &&& env.REQ_NOWAIT) != 0) = 0
        · simp [hw, hs, ha, h0, EAGAIN]
        · by_cases hr : env.diff_area_copy (trace ++ [Event.cbt_map_set b.bi_sector (b.bi_size >>> 9)])
            ctx.diff_area b.bi_sector (b.bi_size >>> 9) ((b.bi_opf &&& env.REQ_NOWAIT) != 0) = -EAGAIN
          · simp [hw, hs, ha, hr, EAGAIN]
          · simp [hw, hs, ha, h0, hr]
      · simp [hw, hs, ha]
    · simp [hw, hs]
  · simp [hw]

/-- C2, as stated, fails: a write met while the tracker is busy with a
snapshot, for which `cbt_map_set` returns an error, is passed on without any
call of `diff_area_copy`. -/
theorem tracker_submit_bio_cb_armed_write_not_copied :
    op_is_write (bio_op write_bio) = true ∧
    armed_tracker.is_busy_with_snapshot = true ∧
    (tracker_submit_bio_cb env_cbt_fails [] write_bio armed_tracker).1 = flt_st.FLT_ST_PASS ∧
    ∀ area sector count nowait, Event.diff_area_copy area sector count nowait ∉
      (tracker_submit_bio_cb env_cbt_fails [] write_bio armed_tracker).2 := by
  have h : tracker_submit_bio_cb env_cbt_fails [] write_bio armed_tracker =
      (flt_st.FLT_ST_PASS, [Event.cbt_map_set 8 16]) := by decide
  rw [h]
  refine ⟨by decide, by decide, rfl, ?_⟩
  intro area sector count nowait
  simp

/-- C2, amended: for every write met by the filter, if `cbt_map_set` returned
0 and the tracker is busy with a snapshot, the filter calls `diff_area_copy`
on the range of the bio (its sector, `bi_size >> 9` sectors, `nowait` as the
`REQ_NOWAIT` bit of the bio) right after `cbt_map_set` and before it answers;
if `cbt_map_set` returned an error, the filter answers `FLT_ST_PASS` at once,
whether the tracker is busy or not, and `cbt_map_set` is the only call it
has made. -/
theorem tracker_submit_bio_cb_copies_when_marked (env : Env) (trace : List Event) (b : bio)
    (ctx : tracker)
    (hw : op_is_write (bio_op b) = true) :
    (env.cbt_map_set trace ctx.cbt_map b.bi_sector (b.bi_size >>> 9) = 0 →
      ctx.is_busy_with_snapshot = true →
      ∃ rest, (tracker_submit_bio_cb env trace b ctx).2 =
        trace ++ [Event.cbt_map_set b.bi_sector (b.bi_size >>> 9),
          Event.diff_area_copy ctx.diff_area b.bi_sector (b.bi_size >>> 9)
            ((b.bi_opf &&& env.REQ_NOWAIT) != 0)] ++ rest) ∧
    (env.cbt_map_set trace ctx.cbt_map b.bi_sector (b.bi_size >>> 9) ≠ 0 →
      tracker_submit_bio_cb env trace b ctx =
        (flt_st.FLT_ST_PASS, trace ++ [Event.cbt_map_set b.bi_sector (b.bi_size >>> 9)])) := by
  refine ⟨?_, ?_⟩
  · intro hs ha
    unfold tracker_submit_bio_cb
    simp only [SECTOR_SHIFT]
    simp only [hw, hs, ha]
    simp only [Bool.not_true, Bool.false_eq_true, if_false, ne_eq, not_true_eq_false]
    split_ifs
    · exact ⟨[], by simp⟩
    · exact ⟨[Event.bio_wouldblock_error b], by simp⟩
    · exact ⟨[], by simp⟩
  · intro hs
    unfold tracker_submit_bio_cb
    simp only [SECTOR_SHIFT]
    simp only [hw, Bool.not_true, Bool.false_eq_true, if_false]
    rw [if_pos hs]

/-- Witness of C2 amended: the write of 16 sectors at sector 8 on the busy
tracker of device 1, in a world where `cbt_map_set` succeeds and in one where
it fails. -/
theorem tracker_submit_bio_cb_copies_when_marked_witness :
    (∃ rest, (tracker_submit_bio_cb env_ok [] write_bio armed_tracker).2 =
      [] ++ [Event.cbt_map_set write_bio.bi_sector (write_bio.bi_size >>> 9),
        Event.diff_area_copy armed_tracker.diff_area write_bio.bi_sector
          (write_bio.bi_size >>> 9) ((write_bio.bi_opf &&& env_ok.REQ_NOWAIT) != 0)] ++ rest) ∧
    tracker_submit_bio_cb env_cbt_fails [] write_bio armed_tracker =
      (flt_st.FLT_ST_PASS,
        [] ++ [Event.cbt_map_set write_bio.bi_sector (write_bio.bi_size >>> 9)]) :=
  ⟨(tracker_submit_bio_cb_copies_when_marked env_ok [] write_bio armed_tracker
      (by decide)).1 (by decide) (by decide),
   (tracker_submit_bio_cb_copies_when_marked env_cbt_fails [] write_bio armed_tracker
      (by decide)).2 (by decide)⟩

/-! ## Snapshot life cycle and tracker list -/

/-- C5: if `snapshot_take` returns 0 for a registered snapshot (a live one, so
with a reference count of at least 1), then every entry of its
`tracker_array` below `count` points to a tracker that is busy with a
snapshot and whose `diff_area` is a diff area made by a `diff_area_new` call
of this very `snapshot_take` for the device of that tracker. -/
theorem snapshot_take_ok_arms_all (env : Env) (st st1 : State) (id sp : Nat) (s : snapshot)
    (hfind : snapshot_find st.snapshot_heap id st.snapshots = some (some sp))
    (hs : heap_get st.snapshot_heap sp = some s)
    (hkref : 0 < s.kref)
    (htake : snapshot_take env st id = some (0, st1))
    (inx : Nat) (hinx : inx < s.count) :
    ∃ p t da evs, s.tracker_array[inx]? = some (some p) ∧
      heap_get st1.tracker_heap p = some t ∧
      t.is_busy_with_snapshot = true ∧
      t.diff_area = some da ∧
      st1.trace = st.trace ++ evs ∧
      Event.diff_area_new t.dev_id (some da) ∈ evs := by
  have hs0 : heap_get (st.set_snapshot sp { s with kref := s.kref + 1 }).snapshot_heap sp =
      some { s with kref := s.kref + 1 } := heap_get_set_self _ (heap_get_lt hs)
  have hget : snapshot_get_by_id st id =
      some (some sp, st.set_snapshot sp { s with kref := s.kref + 1 }) := by
    simp [snapshot_get_by_id, hfind, snapshot_get, hs]
  unfold snapshot_take at htake
  rw [hget] at htake
  simp only [hs0] at htake
  split at htake
  · simp at htake
  · rename_i ret sta hsteps
    split at htake
    · simp at htake
    · rename_i stb hput
      simp only [Option.some.injEq, Prod.mk.injEq] at htake
      obtain ⟨hret, hst⟩ := htake
      subst hret hst
      obtain ⟨hsnap, hall⟩ := take_steps_ok hsteps
      obtain ⟨x1, hx1, hk1⟩ := hsnap _ hs0
      have hheap : stb.tracker_heap = sta.tracker_heap ∧ stb.trace = sta.trace := by
        unfold snapshot_put at hput
        simp only [hx1] at hput
        have hne : ¬ x1.kref = 1 := by
          rw [hk1]
          simp only
          omega
        simp only [hne, if_false, Option.some.injEq] at hput
        subst hput
        exact ⟨rfl, rfl⟩
      obtain ⟨p, hp, ⟨t, da, evs, ht, hda, htr, hmem⟩, ⟨t2, ht2, harm⟩⟩ := hall inx hinx
      rw [ht] at ht2
      simp only [Option.some.injEq] at ht2
      subst ht2
      exact ⟨p, t, da, evs, hp, by rw [hheap.1]; exact ht, harm, hda,
        by rw [hheap.2]; exact htr, hmem⟩

/-- Witness of C5: the snapshot of devices 1 and 2 taken in a world where
every call succeeds, at both indices. -/
theorem snapshot_take_ok_arms_all_witness :
    (∃ p t da evs, two_snapshot.tracker_array[0]? = some (some p) ∧
      heap_get two_state_taken.tracker_heap p = some t ∧
      t.is_busy_with_snapshot = true ∧
      t.diff_area = some da ∧
      two_state_taken.trace = two_state.trace ++ evs ∧
      Event.diff_area_new t.dev_id (some da) ∈ evs) ∧
    (∃ p t da evs, two_snapshot.tracker_array[1]? = some (some p) ∧
      heap_get two_state_taken.tracker_heap p = some t ∧
      t.is_busy_with_snapshot = true ∧
      t.diff_area = some da ∧
      two_state_taken.trace = two_state.trace ++ evs ∧
      Event.diff_area_new t.dev_id (some da) ∈ evs) :=
  ⟨snapshot_take_ok_arms_all env_ok two_state two_state_taken 7 0 two_snapshot
      (by decide) (by decide) (by decide) (by decide) 0 (by decide),
    snapshot_take_ok_arms_all env_ok two_state two_state_taken 7 0 two_snapshot
      (by decide) (by decide) (by decide) (by decide) 1 (by decide)⟩

/-- C3, the code at the failing input: devices 1 and 2 form a snapshot, device
1 was resized and `cbt_map_reset` fails.  `snapshot_take` returns `-ENOMEM`,
and on return the tracker of device 1 is busy with the snapshot while the
tracker of device 2 is not. -/
theorem snapshot_take_failure_leaves_tracker_armed :
    (snapshot_take env_reset_fails two_state 7).map
      (fun r => (r.1, r.2.tracker_heap.map (Option.map tracker.is_busy_with_snapshot))) =
      some (-ENOMEM, [some true, some false]) := by decide

/-- C4, the code at the failing input: devices 1 and 2 form a snapshot and the
snapshot store is reported corrupted.  `snapshot_take` returns `-EDEADLK`,
and on return both entries of `snapimage_array` hold an image. -/
theorem snapshot_take_deadlock_publishes_images :
    (snapshot_take env_corrupted two_state 7).map
      (fun r => (r.1, r.2.snapshot_heap.map (Option.map snapshot.snapimage_array))) =
      some (-EDEADLK, [some [some { original_dev_id := 1, image_dev_id := 900 },
                            some { original_dev_id := 2, image_dev_id := 900 }]]) := by decide

/-- C6, the code at the failing input: devices 1 and 2 form a snapshot and the
snapshot store is reported corrupted.  `snapshot_take` returns `-EDEADLK`
having frozen device 2 once and thawed it never, neither with `thaw_bdev`
nor with `tracker_thaw`. -/
theorem snapshot_take_deadlock_leaves_device_frozen :
    (snapshot_take env_corrupted two_state 7).map
      (fun r => (r.1, r.2.trace.count (Event.freeze_bdev 2), r.2.trace.count (Event.thaw_bdev 2),
        r.2.trace.count (Event.tracker_thaw 2))) =
      some (-EDEADLK, 1, 0, 0) := by decide

/-- C7, as stated, fails: with `freeze_bdev` failing for every device,
`snapshot_take` returns 0 and both trackers are busy with the snapshot. -/
theorem snapshot_take_freeze_failure_not_fatal :
    env_freeze_fails.freeze_bdev
      [Event.diff_area_new 1 (some { ident := 0, orig_bdev := 1 }),
       Event.diff_area_new 2 (some { ident := 1, orig_bdev := 2 })] 1 ≠ 0 ∧
    (snapshot_take env_freeze_fails two_state 7).map
      (fun r => (r.1, r.2.tracker_heap.map (Option.map tracker.is_busy_with_snapshot))) =
      some (0, [some true, some true]) := by decide

theorem freeze_entry_ignores_result (env : Env) (f : List Event → Nat → Int) (s : snapshot) :
    freeze_entry { env with freeze_bdev := f } s = freeze_entry env s := by
  funext i st
  unfold freeze_entry freeze_tracker
  split
  · rfl
  · rfl
  · split
    · rfl
    · simp

/-- C7, amended: a failure of `freeze_bdev` during `snapshot_take` is only
logged.  Whatever `freeze_bdev` returns, `snapshot_take` returns the same
value and leaves the same state (trackers, snapshot, calls made) as with any
other results of `freeze_bdev`, in particular as if every freeze had
succeeded. -/
theorem snapshot_take_ignores_freeze_result (env : Env) (f : List Event → Nat → Int)
    (st : State) (id : Nat) :
    snapshot_take { env with freeze_bdev := f } st id = snapshot_take env st id := by
  unfold snapshot_take take_steps snapshot_put snapshot_free
  simp only [freeze_entry_ignores_result]
  rfl

/-- C8: when the device is tracked and its tracker is busy with a snapshot,
`tracker_remove` returns `-EBUSY` and leaves the whole state as it was: the
tracker list, the tracker with its busy flag and its reference count, and the
trace, so that neither `tracker_filter` nor any other external call was
made. -/
theorem tracker_remove_busy (env : Env) (st : State) (dev_id p : Nat) (t : tracker)
    (hfind : tracker_find st.tracker_heap dev_id st.trackers = some (some p))
    (ht : heap_get st.tracker_heap p = some t)
    (hbusy : t.is_busy_with_snapshot = true)
    (href : 0 < t.refcount) :
    tracker_remove env st dev_id = some (-EBUSY, st) := by
  have hlt := heap_get_lt ht
  have h1 : heap_get (st.set_tracker p { t with refcount := t.refcount + 1 }).tracker_heap p =
      some { t with refcount := t.refcount + 1 } := heap_get_set_self _ hlt
  have hget : tracker_get_by_dev_id st dev_id =
      some (some p, st.set_tracker p { t with refcount := t.refcount + 1 }) := by
    simp [tracker_get_by_dev_id, hfind, tracker_get, ht]
  have hne : ¬ t.refcount + 1 = 1 := by omega
  have hback : (st.set_tracker p { t with refcount := t.refcount + 1 }).set_tracker p
      { ({ t with refcount := t.refcount + 1 } : tracker) with
        refcount := ({ t with refcount := t.refcount + 1 } : tracker).refcount - 1 } = st := by
    cases st with
    | mk heap trackers sheap snapshots trace =>
      simp only [State.set_tracker, List.set_set, Nat.add_sub_cancel]
      simp only at ht
      have hself : ({ t with refcount := t.refcount } : tracker) = t := rfl
      rw [hself, heap_set_self ht]
  unfold tracker_remove
  rw [hget]
  dsimp only
  rw [h1]
  dsimp only
  rw [if_pos hbusy]
  unfold tracker_put
  dsimp only
  rw [h1]
  dsimp only
  rw [if_neg hne]
  dsimp only
  rw [hback]

/-- Witness of C8: device 1, tracked by a tracker that is busy with a
snapshot. -/
theorem tracker_remove_busy_witness :
    tracker_remove env_ok armed_state 1 = some (-EBUSY, armed_state) :=
  tracker_remove_busy env_ok armed_state 1 0 armed_tracker (by decide) (by decide) (by decide)
    (by decide)

/-- C9, the code at the failing input: device 5 is not tracked;
`tracker_create_or_get` succeeds and `tracker_remove` then returns 0, but the
tracker list, empty before, now holds the tracker twice, and a search for
device 5 still finds it. -/
theorem tracker_remove_keeps_tracker_listed :
    tracker_find empty_state.tracker_heap 5 empty_state.trackers = some none ∧
    ((tracker_create_or_get env_ok empty_state 5).bind fun r =>
      (tracker_remove env_ok r.2 5).map fun q =>
        (r.1, q.1, q.2.trackers, tracker_find q.2.tracker_heap 5 q.2.trackers)) =
      some (ptr_or_err.ptr 0, 0, [0, 0], some (some 0)) := by decide

/-- C10, the code at the failing input: `snapshot_create` for the one device 5
returns 0, but the snapshot created has `count` 0 and a `NULL` entry in
`tracker_array`, and no tracker was obtained or created. -/
theorem snapshot_create_leaves_count_zero :
    snapshot_create env_ok empty_state [5] 1 =
      some (0, some 3,
        { tracker_heap := []
          trackers := []
          snapshot_heap := [some { id := 3, kref := 1, count := 0, tracker_array := [none],
                                   snapimage_array := [none], diff_storage := none }]
          snapshots := [0]
          trace := [Event.kzalloc, Event.kzalloc, Event.kzalloc, Event.uuid_gen 3] }) := by
  decide

/-! ## The queries -/

/-- C20, the code at the failing input: on the busy tracker of device 1,
whose map is neither corrupted nor of another capacity than the device,
`cbt_map_switch` is the call made and it reports an error, yet
`tracker_take_snapshot` returns 0.  `snapshot_take` of the two devices in the
same world returns 0 as well, with both trackers busy, both maps marked
corrupted by the failed switch, and both images published. -/
theorem tracker_take_snapshot_switch_error_dropped :
    (env_switch_fails.cbt_map_switch [] cbt_map_100).1 ≠ 0 ∧
    (tracker_take_snapshot env_switch_fails armed_state 0).map
      (fun r => (r.1, r.2.trace)) = some (0, [Event.cbt_map_switch 1]) ∧
    (snapshot_take env_switch_fails two_state 7).map (fun r => r.1) = some 0 ∧
    (snapshot_take env_switch_fails two_state 7).map
      (fun r => r.2.tracker_heap.map
        (Option.map fun t => (t.is_busy_with_snapshot, t.cbt_map.map cbt_map.is_corrupted))) =
      some [some (true, some true), some (true, some true)] ∧
    (snapshot_take env_switch_fails two_state 7).map
      (fun r => r.2.snapshot_heap.map (Option.map snapshot.snapimage_array)) =
      some [some [some { original_dev_id := 1, image_dev_id := 900 },
                  some { original_dev_id := 2, image_dev_id := 900 }]] :=
  ⟨by decide, by decide, by decide, by decide, by decide⟩

/-- The CBT call of `tracker_take_snapshot`, for a tracker with a CBT map and
a diff area: `cbt_map_reset` when the map is corrupted or its
`device_capacity` differs from the capacity of the device, and
`cbt_map_switch` otherwise, never both.  The value returned is what
`cbt_map_reset` returned in the first case and 0 in the second, whatever
`cbt_map_switch` reported. -/
theorem tracker_take_snapshot_cbt_call (env : Env) (st : State) (p : Nat) (t : tracker)
    (cm : cbt_map) (da : diff_area)
    (ht : heap_get st.tracker_heap p = some t)
    (hcm : t.cbt_map = some cm) (hda : t.diff_area = some da) :
    ∃ ret st1, tracker_take_snapshot env st p = some (ret, st1) ∧
      ((cm.is_corrupted = true ∨
          cm.device_capacity ≠ env.bdev_nr_sectors st.trace da.orig_bdev) →
        st1.trace = st.trace ++ [Event.cbt_map_reset t.dev_id] ∧
        ret = (env.cbt_map_reset st.trace cm).1) ∧
      (¬ (cm.is_corrupted = true ∨
          cm.device_capacity ≠ env.bdev_nr_sectors st.trace da.orig_bdev) →
        st1.trace = st.trace ++ [Event.cbt_map_switch t.dev_id] ∧ ret = 0) := by
  unfold tracker_take_snapshot
  rw [ht]
  dsimp only
  rw [hcm, hda]
  dsimp only
  by_cases hc : (cm.is_corrupted = true ∨
      cm.device_capacity ≠ env.bdev_nr_sectors st.trace da.orig_bdev)
  · have hb : (cm.is_corrupted ||
        (cm.device_capacity != env.bdev_nr_sectors st.trace da.orig_bdev)) = true := by
      simpa using hc
    rw [if_pos hb]
    exact ⟨_, _, rfl, fun _ => ⟨rfl, rfl⟩, fun h => absurd hc h⟩
  · have hb : ¬ (cm.is_corrupted ||
        (cm.device_capacity != env.bdev_nr_sectors st.trace da.orig_bdev)) = true := by
      simpa using hc
    rw [if_neg hb]
    exact ⟨_, _, rfl, fun h => absurd h hc, fun _ => ⟨rfl, rfl⟩⟩

/-! ## `tracker_collect` -/

/-- C16, the code at the failing input: device 5 is given a tracker by
`tracker_create_or_get`, whose `target_dev` is `NULL` as it came from
`kzalloc`, and `tracker_collect` is called with a buffer of four entries.
The first pass of its loop reads the device behind `tracker->target_dev`, a
`NULL` pointer: a memory fault, not the success with count 1 of the claim.
The same holds for the two trackers of `two_state` and a buffer of two
entries.  For the empty list `tracker_collect` returns `-ENODATA`. -/
theorem tracker_collect_reads_null_target_dev :
    (tracker_create_or_get env_ok empty_state 5).map
      (fun r => (r.1, r.2.trackers, r.2.tracker_heap.map (Option.map tracker.target_dev))) =
      some (ptr_or_err.ptr 0, [0], [some none]) ∧
    ((tracker_create_or_get env_ok empty_state 5).map fun r =>
      tracker_collect env_ok r.2 4 (some [blank_info, blank_info, blank_info, blank_info])) =
      some none ∧
    tracker_collect env_ok two_state 2 (some [blank_info, blank_info]) = none ∧
    tracker_collect env_ok empty_state 4 (some [blank_info, blank_info, blank_info, blank_info]) =
      some (-ENODATA, 0, some [blank_info, blank_info, blank_info, blank_info]) :=
  ⟨by decide, by decide, by decide, by decide⟩

/-! ## `snapshot_collect_images` -/

/-- C17, the code at the failing input: the snapshot has two entries and one
published image, and the caller has room for one pair.
`snapshot_collect_images` returns `-ENODATA`, copies nothing out and sets
`*pcount` to 2. -/
theorem snapshot_collect_images_counts_all_entries :
    (partial_snapshot.snapimage_array.filter Option.isSome).length = 1 ∧
    snapshot_collect_images env_ok partial_state 7 1 = some (-ENODATA, 2, partial_state) := by
  decide

/-! ## The order of freeze and thaw -/

/-- C19, as stated, fails: for the snapshot of devices 1 and 2, frozen in the
order 1, 2, a successful `snapshot_take` thaws in the order 1, 2 as well, not
in the reverse order 2, 1. -/
theorem snapshot_take_thaw_not_reversed :
    (snapshot_take env_ok two_state 7).map
      (fun r => (r.1, frozen_devs r.2.trace, thawed_devs r.2.trace)) =
      some (0, [1, 2], [1, 2]) ∧
    ([1, 2] : List Nat) ≠ [1, 2].reverse := by
  decide

theorem frozen_devs_append (a b : List Event) :
    frozen_devs (a ++ b) = frozen_devs a ++ frozen_devs b := by
  simp [frozen_devs]

theorem thawed_devs_append (a b : List Event) :
    thawed_devs (a ++ b) = thawed_devs a ++ thawed_devs b := by
  simp [thawed_devs]

theorem filterMap_range_congr {f g : Nat → Option Nat} (n : Nat)
    (h : ∀ i, i < n → f i = g i) :
    (List.range n).filterMap f = (List.range n).filterMap g := by
  induction n with
  | zero => rfl
  | succ n ih =>
    rw [List.range_succ, List.filterMap_append, List.filterMap_append,
      ih (fun i hi => h i (by omega))]
    simp only [List.filterMap_cons, h n (by omega), List.filterMap_nil]

theorem tracker_entry_heap_congr (s : snapshot) {st st1 : State} (i : Nat)
    (hh : st1.tracker_heap = st.tracker_heap) :
    tracker_entry s st1 i = tracker_entry s st i := by
  unfold tracker_entry
  rw [hh]

theorem entry_bdev_heap_congr (s : snapshot) {st st1 : State} (i : Nat)
    (hh : st1.tracker_heap = st.tracker_heap) :
    entry_bdev s st1 i = entry_bdev s st i := by
  unfold entry_bdev
  rw [tracker_entry_heap_congr s i hh]

theorem entry_bdev_keeps {s : snapshot} {st st1 : State} {i : Nat}
    (hk : keeps st st1) (hne : tracker_entry s st i ≠ none) :
    entry_bdev s st1 i = entry_bdev s st i := by
  unfold entry_bdev
  cases he : tracker_entry s st i with
  | none => exact absurd he hne
  | some r =>
    cases r with
    | none =>
      have hn := tracker_entry_none he
      have : tracker_entry s st1 i = some none := by
        unfold tracker_entry
        rw [hn]
      rw [this]
    | some pt =>
      obtain ⟨p, t⟩ := pt
      obtain ⟨hp, ht⟩ := tracker_entry_some he
      obtain ⟨t1, ht1, _, ha, _⟩ := hk.2.1 p t ht
      have : tracker_entry s st1 i = some (some (p, t1)) := by
        unfold tracker_entry
        rw [hp]
        dsimp only
        rw [ht1]
      rw [this]
      dsimp only
      rw [ha]

theorem quiet_refl (st : State) : quiet st st := ⟨[], by simp, rfl, rfl⟩

theorem quiet_trans {a b c : State} (hab : quiet a b) (hbc : quiet b c) : quiet a c := by
  obtain ⟨e1, h1, f1, t1⟩ := hab
  obtain ⟨e2, h2, f2, t2⟩ := hbc
  exact ⟨e1 ++ e2, by rw [h2, h1, List.append_assoc],
    by rw [frozen_devs_append, f1, f2]; rfl, by rw [thawed_devs_append, t1, t2]; rfl⟩

theorem quiet_of_trace {st st1 : State} (e : Event) (ht : st1.trace = st.trace ++ [e])
    (hf : frozen_devs [e] = []) (hth : thawed_devs [e] = []) : quiet st st1 :=
  ⟨[e], ht, hf, hth⟩

theorem take_diff_area_quiet {env : Env} {s : snapshot} {i : Nat} {st st1 : State}
    {r : Option (Int × Nat)} (h : take_diff_area env s i st = some (r, st1)) :
    quiet st st1 := by
  unfold take_diff_area at h
  split at h
  · simp at h
  · simp only [Option.some.injEq, Prod.mk.injEq] at h
    obtain ⟨_, hst⟩ := h
    subst hst
    exact quiet_refl _
  · split at h <;>
    · simp only [Option.some.injEq, Prod.mk.injEq] at h
      obtain ⟨_, hst⟩ := h
      subst hst
      exact quiet_of_trace _ rfl rfl rfl

theorem tracker_take_snapshot_quiet {env : Env} {st st1 : State} {p : Nat} {ret : Int}
    (h : tracker_take_snapshot env st p = some (ret, st1)) : quiet st st1 := by
  unfold tracker_take_snapshot at h
  split at h
  · simp at h
  · split at h
    · dsimp only at h
      split at h <;>
      · simp only [Option.some.injEq, Prod.mk.injEq] at h
        obtain ⟨_, hst⟩ := h
        subst hst
        exact quiet_of_trace _ rfl rfl rfl
    · simp at h

theorem take_tracker_quiet {env : Env} {s : snapshot} {i : Nat} {st st1 : State}
    {r : Option (Int × Nat)} (h : take_tracker env s i st = some (r, st1)) :
    quiet st st1 := by
  unfold take_tracker at h
  split at h
  · simp at h
  · simp only [Option.some.injEq, Prod.mk.injEq] at h
    obtain ⟨_, hst⟩ := h
    subst hst
    exact quiet_refl _
  · split at h
    · simp at h
    · rename_i ret st2 hts
      split at h <;>
      · simp only [Option.some.injEq, Prod.mk.injEq] at h
        obtain ⟨_, hst⟩ := h
        subst hst
        exact tracker_take_snapshot_quiet hts

theorem take_image_quiet {env : Env} {s : snapshot} {sp i : Nat} {st st1 : State}
    {r : Option Int} (h : take_image env s sp i st = some (r, st1)) : quiet st st1 := by
  unfold take_image at h
  split at h
  · simp at h
  · simp at h
  · split at h
    · simp only [Option.some.injEq, Prod.mk.injEq] at h
      obtain ⟨_, hst⟩ := h
      subst hst
      exact quiet_of_trace _ rfl rfl rfl
    · simp only at h
      split at h
      · simp at h
      · split at h
        · simp only [Option.some.injEq, Prod.mk.injEq] at h
          obtain ⟨_, hst⟩ := h
          subst hst
          exact quiet_of_trace _ rfl rfl rfl
        · simp at h

theorem for_loop_quiet {β : Type} {count : Nat}
    {body : Nat → State → Option (Option β × State)}
    (hbody : ∀ i st r st1, body i st = some (r, st1) → quiet st st1)
    {st st1 : State} {r : Option β}
    (h : for_loop count body count st = some (r, st1)) : quiet st st1 := by
  have key := for_loop_rule count body (fun _ x => quiet st x) (fun _ x => quiet st x)
    (fun i x r0 x1 _ hI hb =>
      ⟨fun _ => quiet_trans hI (hbody i x r0 x1 hb), fun _ _ => quiet_trans hI (hbody i x r0 x1 hb)⟩)
    count st r st1 (le_refl _) (quiet_refl _) h
  cases r with
  | none => exact key.1 rfl
  | some b => exact key.2 b rfl

theorem freeze_loop_order {env : Env} {s : snapshot} {st st1 : State}
    (h : for_each s.count (freeze_entry env s) s.count st = some st1) :
    st1.tracker_heap = st.tracker_heap ∧
    (∃ evs, st1.trace = st.trace ++ evs ∧
      frozen_devs evs = (List.range s.count).filterMap (entry_bdev s st) ∧
      thawed_devs evs = []) ∧
    ∀ j, j < s.count → tracker_entry s st j ≠ none := by
  have key := for_each_rule s.count (freeze_entry env s)
    (fun i x => x.tracker_heap = st.tracker_heap ∧
      (∃ evs, x.trace = st.trace ++ evs ∧
        frozen_devs evs = (List.range i).filterMap (entry_bdev s st) ∧
        thawed_devs evs = []) ∧
      ∀ j, j < i → tracker_entry s st j ≠ none)
    (by
      intro i x x1 _ hI hb
      obtain ⟨hh, ⟨evs, htr, hfr, hth⟩, hall⟩ := hI
      have hent := tracker_entry_heap_congr s i hh
      unfold freeze_entry at hb
      rw [hent] at hb
      cases he : tracker_entry s st i with
      | none => simp [he] at hb
      | some r =>
        have hne : ∀ j, j < i + 1 → tracker_entry s st j ≠ none := by
          intro j hj
          by_cases hji : j = i
          · subst hji
            rw [he]
            simp
          · exact hall j (by omega)
        cases r with
        | none =>
          simp only [he, Option.some.injEq] at hb
          subst hb
          refine ⟨hh, ⟨evs, htr, ?_, hth⟩, hne⟩
          rw [List.range_succ, List.filterMap_append, ← hfr]
          simp [entry_bdev, he]
        | some pt =>
          obtain ⟨p, t⟩ := pt
          simp only [he] at hb
          unfold freeze_tracker at hb
          cases hda : t.diff_area with
          | none => simp [hda] at hb
          | some da =>
            have hx1 : x1 = x.emit (Event.freeze_bdev da.orig_bdev) := by
              simp only [hda, ite_self, Option.some.injEq] at hb
              exact hb.symm
            subst hx1
            refine ⟨hh, ⟨evs ++ [Event.freeze_bdev da.orig_bdev], ?_, ?_, ?_⟩, hne⟩
            · rw [emit_trace, htr, List.append_assoc]
            · rw [frozen_devs_append, hfr, List.range_succ, List.filterMap_append]
              simp [entry_bdev, he, hda, frozen_devs]
            · rw [thawed_devs_append, hth]
              rfl)
    s.count st st1 (le_refl _)
    (by
      refine ⟨rfl, ⟨[], by simp, by simp [frozen_devs], rfl⟩, ?_⟩
      intro j hj
      omega)
    h
  exact key

theorem thaw_loop_order {env : Env} {s : snapshot} {st st1 : State}
    (h : for_loop s.count (take_thaw env s) s.count st = some (none, st1)) :
    st1.tracker_heap = st.tracker_heap ∧
    (∃ evs, st1.trace = st.trace ++ evs ∧
      thawed_devs evs = (List.range s.count).filterMap (entry_bdev s st) ∧
      frozen_devs evs = []) ∧
    ∀ j, j < s.count → tracker_entry s st j ≠ none := by
  have key := for_loop_rule s.count (take_thaw env s)
    (fun i x => x.tracker_heap = st.tracker_heap ∧
      (∃ evs, x.trace = st.trace ++ evs ∧
        thawed_devs evs = (List.range i).filterMap (entry_bdev s st) ∧
        frozen_devs evs = []) ∧
      ∀ j, j < i → tracker_entry s st j ≠ none)
    (fun _ _ => True)
    (by
      intro i x r0 x1 _ hI hb
      refine ⟨fun hr => ?_, fun _ _ => trivial⟩
      subst hr
      obtain ⟨hh, ⟨evs, htr, hth, hfr⟩, hall⟩ := hI
      have hent := tracker_entry_heap_congr s i hh
      unfold take_thaw at hb
      rw [hent] at hb
      cases he : tracker_entry s st i with
      | none => simp [he] at hb
      | some r =>
        have hne : ∀ j, j < i + 1 → tracker_entry s st j ≠ none := by
          intro j hj
          by_cases hji : j = i
          · subst hji
            rw [he]
            simp
          · exact hall j (by omega)
        cases r with
        | none =>
          simp only [he, Option.some.injEq, Prod.mk.injEq, true_and] at hb
          subst hb
          refine ⟨hh, ⟨evs, htr, ?_, hfr⟩, hne⟩
          rw [List.range_succ, List.filterMap_append, ← hth]
          simp [entry_bdev, he]
        | some pt =>
          obtain ⟨p, t⟩ := pt
          simp only [he] at hb
          unfold thaw_tracker at hb
          cases hda : t.diff_area with
          | none => simp [hda] at hb
          | some da =>
            have hx1 : x1 = x.emit (Event.thaw_bdev da.orig_bdev) := by
              simp only [hda, ite_self] at hb
              split at hb
              · simp at hb
              · simp only [Option.some.injEq, Prod.mk.injEq, true_and] at hb
                exact hb.symm
            subst hx1
            refine ⟨hh, ⟨evs ++ [Event.thaw_bdev da.orig_bdev], ?_, ?_, ?_⟩, hne⟩
            · rw [emit_trace, htr, List.append_assoc]
            · rw [thawed_devs_append, hth, List.range_succ, List.filterMap_append]
              simp [entry_bdev, he, hda, thawed_devs]
            · rw [frozen_devs_append, hfr]
              rfl)
    s.count st none st1 (le_refl _)
    (by
      refine ⟨rfl, ⟨[], by simp, by simp [thawed_devs], rfl⟩, ?_⟩
      intro j hj
      omega)
    h
  exact key.1 rfl

theorem take_thaw_exit_nonzero {env : Env} {s : snapshot} {st st1 : State} {b : Int}
    (h : for_loop s.count (take_thaw env s) s.count st = some (some b, st1)) : b ≠ 0 := by
  have key := for_loop_rule s.count (take_thaw env s) (fun _ _ => True) (fun b _ => b ≠ 0)
    (by
      intro i x r0 x1 _ _ hb
      refine ⟨fun _ => trivial, fun b hr => ?_⟩
      subst hr
      unfold take_thaw at hb
      split at hb
      · simp at hb
      · simp at hb
      · split at hb
        · simp at hb
        · split at hb
          · simp only [Option.some.injEq, Prod.mk.injEq] at hb
            rw [← hb.1]
            decide
          · simp at hb)
    s.count st (some b) st1 (le_refl _) trivial h
  exact key.2 b rfl

theorem take_steps_order {env : Env} {sp : Nat} {s : snapshot} {st st1 : State}
    (h : take_steps env sp s st = some (0, st1)) :
    ∃ evs, st1.trace = st.trace ++ evs ∧
      frozen_devs evs = (List.range s.count).filterMap (entry_bdev s st1) ∧
      thawed_devs evs = (List.range s.count).filterMap (entry_bdev s st1) ∧
      ∀ i, i < s.count → (entry_bdev s st1 i).isSome = true := by
  have hok := (take_steps_ok h).2
  unfold take_steps at h
  split at h
  · simp at h
  · rename_i ret inx sta h1
    have hne := (take_diff_area_loop h1).2 (ret, inx) rfl
    cases hf : take_fail s inx sta with
    | none => simp [hf] at h
    | some stb =>
      simp only [hf, Option.map_some', Option.some.injEq, Prod.mk.injEq] at h
      exact absurd h.1 hne
  · rename_i sta h1
    obtain ⟨e1, htr1, hf1, ht1⟩ := for_loop_quiet (fun _ _ _ _ hb => take_diff_area_quiet hb) h1
    split at h
    · simp at h
    · rename_i stb h2
      obtain ⟨hh2, ⟨e2, htr2, hf2, ht2⟩, hent2⟩ := freeze_loop_order h2
      split at h
      · simp at h
      · rename_i ret inx stc h3
        have hne := (take_tracker_loop h3).2 (ret, inx) rfl
        cases hf : take_fail s inx stc with
        | none => simp [hf] at h
        | some std =>
          simp only [hf, Option.map_some', Option.some.injEq, Prod.mk.injEq] at h
          exact absurd h.1 hne
      · rename_i stc h3
        obtain ⟨e3, htr3, hf3, ht3⟩ := for_loop_quiet (fun _ _ _ _ hb => take_tracker_quiet hb) h3
        have hk3 := ((take_tracker_loop h3).1 rfl).1
        split at h
        · simp at h
        · rename_i r4 std h4
          split at h
          · simp at h
          · rename_i ret ste h5
            have hne := (take_image_loop h5).2 ret rfl
            simp only [Option.some.injEq, Prod.mk.injEq] at h
            exact absurd h.1 hne
          · rename_i ste h5
            obtain ⟨e5, htr5, hf5, ht5⟩ :=
              for_loop_quiet (fun _ _ _ _ hb => take_image_quiet hb) h5
            have hk5 := ((take_image_loop h5).1 rfl).1
            simp only [Option.some.injEq, Prod.mk.injEq] at h
            obtain ⟨hret, hst⟩ := h
            subst hst
            cases r4 with
            | some b =>
              simp only [Option.getD_some] at hret
              exact absurd hret (take_thaw_exit_nonzero h4)
            | none =>
              obtain ⟨hh4, ⟨e4, htr4, ht4, hf4⟩, hent4⟩ := thaw_loop_order h4
              have hfinal : ∀ i, i < s.count →
                  entry_bdev s ste i = entry_bdev s stc i := by
                intro i hi
                rw [entry_bdev_keeps hk5 (by
                  rw [tracker_entry_heap_congr s i hh4]
                  exact hent4 i hi)]
                exact entry_bdev_heap_congr s i hh4
              have hmid : ∀ i, i < s.count →
                  entry_bdev s stc i = entry_bdev s sta i := by
                intro i hi
                rw [entry_bdev_keeps hk3 (by
                  rw [tracker_entry_heap_congr s i hh2]
                  exact hent2 i hi)]
                exact entry_bdev_heap_congr s i hh2
              refine ⟨e1 ++ e2 ++ e3 ++ e4 ++ e5, ?_, ?_, ?_, ?_⟩
              · rw [htr5, htr4, htr3, htr2, htr1]
                simp only [List.append_assoc]
              · simp only [frozen_devs_append, hf1, hf2, hf3, hf4, hf5, List.nil_append,
                  List.append_nil]
                exact filterMap_range_congr s.count
                  (fun i hi => ((hfinal i hi).trans (hmid i hi)).symm)
              · simp only [thawed_devs_append, ht1, ht2, ht3, ht4, ht5, List.nil_append,
                  List.append_nil]
                exact filterMap_range_congr s.count (fun i hi => (hfinal i hi).symm)
              · intro i hi
                obtain ⟨p, hp, ⟨t, da, _, ht, hda, _, _⟩, _⟩ := hok i hi
                have : tracker_entry s ste i = some (some (p, t)) := by
                  unfold tracker_entry
                  rw [hp]
                  dsimp only
                  rw [ht]
                unfold entry_bdev
                rw [this]
                dsimp only
                rw [hda]
                rfl

/-- C19, amended: when `snapshot_take` returns 0 for a registered, live
snapshot, the devices it thawed, in the order of the `thaw_bdev` calls, are
the devices it froze, in the order of the `freeze_bdev` calls: both are the
devices of the entries 0, 1, ..., `count - 1` in increasing index order. -/
theorem snapshot_take_thaws_in_freeze_order (env : Env) (st st1 : State) (id sp : Nat)
    (s : snapshot)
    (hfind : snapshot_find st.snapshot_heap id st.snapshots = some (some sp))
    (hs : heap_get st.snapshot_heap sp = some s)
    (hkref : 0 < s.kref)
    (htake : snapshot_take env st id = some (0, st1)) :
    ∃ evs, st1.trace = st.trace ++ evs ∧
      frozen_devs evs = (List.range s.count).filterMap (entry_bdev s st1) ∧
      thawed_devs evs = (List.range s.count).filterMap (entry_bdev s st1) ∧
      ∀ i, i < s.count → (entry_bdev s st1 i).isSome = true := by
  have hs0 : heap_get (st.set_snapshot sp { s with kref := s.kref + 1 }).snapshot_heap sp =
      some { s with kref := s.kref + 1 } := heap_get_set_self _ (heap_get_lt hs)
  have hget : snapshot_get_by_id st id =
      some (some sp, st.set_snapshot sp { s with kref := s.kref + 1 }) := by
    simp [snapshot_get_by_id, hfind, snapshot_get, hs]
  unfold snapshot_take at htake
  rw [hget] at htake
  simp only [hs0] at htake
  split at htake
  · simp at htake
  · rename_i ret sta hsteps
    split at htake
    · simp at htake
    · rename_i stb hput
      simp only [Option.some.injEq, Prod.mk.injEq] at htake
      obtain ⟨hret, hst⟩ := htake
      subst hret hst
      obtain ⟨hsnap, _⟩ := take_steps_ok hsteps
      obtain ⟨x1, hx1, hk1⟩ := hsnap _ hs0
      have hheap : stb.tracker_heap = sta.tracker_heap ∧ stb.trace = sta.trace := by
        unfold snapshot_put at hput
        simp only [hx1] at hput
        have hne : ¬ x1.kref = 1 := by
          rw [hk1]
          simp only
          omega
        simp only [hne, if_false, Option.some.injEq] at hput
        subst hput
        exact ⟨rfl, rfl⟩
      obtain ⟨evs, htr, hfr, hth, hsome⟩ := take_steps_order hsteps
      have hcongr : ∀ i, entry_bdev s stb i =
          entry_bdev { s with kref := s.kref + 1 } sta i := by
        intro i
        rw [entry_bdev_heap_congr s i hheap.1]
        rfl
      have hlist : (List.range s.count).filterMap (entry_bdev s stb) =
          (List.range s.count).filterMap (entry_bdev { s with kref := s.kref + 1 } sta) :=
        filterMap_range_congr s.count (fun i _ => hcongr i)
      refine ⟨evs, by rw [hheap.2]; exact htr, ?_, ?_, ?_⟩
      · rw [hlist]
        exact hfr
      · rw [hlist]
        exact hth
      · intro i hi
        rw [hcongr i]
        exact hsome i hi

/-- Witness of C19 amended: the snapshot of devices 1 and 2, taken in a world
where every call succeeds. -/
theorem snapshot_take_thaws_in_freeze_order_witness :
    ∃ evs, two_state_taken.trace = two_state.trace ++ evs ∧
      frozen_devs evs =
        (List.range two_snapshot.count).filterMap (entry_bdev two_snapshot two_state_taken) ∧
      thawed_devs evs =
        (List.range two_snapshot.count).filterMap (entry_bdev two_snapshot two_state_taken) ∧
      ∀ i, i < two_snapshot.count → (entry_bdev two_snapshot two_state_taken i).isSome = true :=
  snapshot_take_thaws_in_freeze_order env_ok two_state two_state_taken 7 0 two_snapshot
    (by decide) (by decide) (by decide) (by decide)

/-! ## The diff area of a tracker that is not busy -/

/-- C18, the code at the failing inputs.  `tracker_release_snapshot` on the
busy tracker of device 1 leaves it not busy with its `diff_area` still set.
`snapshot_destroy` of the snapshot of devices 1 and 2, after a successful
`snapshot_take`, returns 0 and leaves both trackers not busy with their
`diff_area` still set.  A `snapshot_take` that fails with `-ENOMEM`
(`cbt_map_reset` fails) ends with `diff_area_put` of both diff areas, and the
tracker of device 2, not busy, still holds the pointer to the area just
released. -/
theorem tracker_keeps_diff_area_when_not_busy :
    (tracker_release_snapshot armed_state (some 0)).map
      (fun st => st.tracker_heap.map
        (Option.map fun t => (t.is_busy_with_snapshot, t.diff_area))) =
      some [some (false, some { ident := 0, orig_bdev := 1 })] ∧
    (snapshot_destroy env_ok two_state_taken 7).map
      (fun r => (r.1, r.2.tracker_heap.map
        (Option.map fun t => (t.is_busy_with_snapshot, t.diff_area)))) =
      some (0, [some (false, some { ident := 0, orig_bdev := 1 }),
                some (false, some { ident := 1, orig_bdev := 2 })]) ∧
    (snapshot_take env_reset_fails two_state 7).map (fun r => r.1) = some (-ENOMEM) ∧
    (snapshot_take env_reset_fails two_state 7).map
      (fun r => r.2.tracker_heap.map
        (Option.map fun t => (t.is_busy_with_snapshot, t.diff_area))) =
      some [some (true, some { ident := 0, orig_bdev := 1 }),
            some (false, some { ident := 1, orig_bdev := 2 })] ∧
    (snapshot_take env_reset_fails two_state 7).map (fun r => r.2.trace.drop 7) =
      some [Event.diff_area_put { ident := 0, orig_bdev := 1 },
            Event.diff_area_put { ident := 1, orig_bdev := 2 }] :=
  ⟨by decide, by decide, by decide, by decide, by decide⟩

/-! ## diff_io.c -/

/-- C11, the code at the failing input: the region is page aligned and has
65536 pages, the buffer one.  The page count, cut to 16 bits, is 0, the test
against `page_count` passes, and `diff_io_do` does not return `-EINVAL`: it
starts to fill a bio and reads `pages` past its end. -/
theorem diff_io_do_accepts_oversized_region :
    (65536 * 8 + 7) / 8 > one_page_buffer.page_count ∧
    calc_page_count huge_region.count = 0 ∧
    diff_io_do alloc_ok async_io huge_region one_page_buffer false = outcome.fault := by
  decide

/-- A page holds 8 sectors. -/
theorem PAGE_SECTORS_eq : PAGE_SECTORS = 8 := by decide

/-- The inner loop `while (offset < portion)`, given enough pages: it ends
normally, having moved `offset` to `portion` and added one page for every
started page of the sectors left, from `idx` onwards. -/
theorem add_pages_run (pages : List Nat) (portion : Nat) :
    ∀ (fuel offset idx : Nat) (bvecs : List (Nat × Nat)),
      portion - offset ≤ fuel →
      idx + (portion - offset + 7) / 8 ≤ pages.length →
      ∃ bv, add_pages pages portion fuel offset idx bvecs =
          outcome.ok (max offset portion, idx + (portion - offset + 7) / 8, bvecs ++ bv) ∧
        bv.length = (portion - offset + 7) / 8 := by
  intro fuel
  induction fuel with
  | zero =>
    intro offset idx bvecs hf _
    have hlt : ¬ offset < portion := by omega
    have h0 : (portion - offset + 7) / 8 = 0 := by omega
    have hm : max offset portion = offset := by omega
    exact ⟨[], by simp [add_pages, hlt, h0, hm], by simp [h0]⟩
  | succ k ih =>
    intro offset idx bvecs hf hlen
    by_cases hlt : offset < portion
    · have hidx : idx < pages.length := by omega
      have hstep : (portion - offset + 7) / 8 =
          1 + (portion - (offset + min 8 (portion - offset)) + 7) / 8 := by omega
      obtain ⟨bv, hrun, hbv⟩ := ih (offset + min 8 (portion - offset)) (idx + 1)
        (bvecs ++ [(pages[idx], (min 8 (portion - offset) <<< SECTOR_SHIFT) % 2 ^ 32)])
        (by omega) (by omega)
      refine ⟨(pages[idx], (min 8 (portion - offset) <<< SECTOR_SHIFT) % 2 ^ 32) :: bv, ?_, ?_⟩
      · simp only [add_pages, hlt, if_true, PAGE_SECTORS_eq, List.getElem?_eq_getElem hidx]
        rw [hrun]
        have hm : max (offset + min 8 (portion - offset)) portion = max offset portion := by
          omega
        have hi : idx + 1 + (portion - (offset + min 8 (portion - offset)) + 7) / 8 =
            idx + (portion - offset + 7) / 8 := by omega
        rw [hm, hi, List.append_assoc]
        rfl
      · rw [List.length_cons, hbv]
        omega
    · have h0 : (portion - offset + 7) / 8 = 0 := by omega
      have hm : max offset portion = offset := by omega
      exact ⟨[], by simp [add_pages, hlt, h0, hm], by simp [h0]⟩

/-- With nothing left to process the outer loop ends at once. -/
theorem build_bios_finished (alloc : Bool → Nat → Bool) (is_nowait : Bool) (r : diff_region)
    (b : diff_buffer) (k : Nat) (s : build_state) (h : ¬ s.processed < r.count) :
    build_bios alloc is_nowait r b k s = outcome.ok (true, s) := by
  cases k with
  | zero =>
    unfold build_bios
    rw [if_neg h]
  | succ k =>
    unfold build_bios
    rw [if_neg h]

/-- The outer loop adds one to `bio_count` for every bio it puts on the
list, and when it ends normally with something to process it has built a bio. -/
theorem build_bios_counts (alloc : Bool → Nat → Bool) (is_nowait : Bool) (r : diff_region)
    (b : diff_buffer) :
    ∀ (k : Nat) (s s1 : build_state) (res : Bool),
      build_bios alloc is_nowait r b k s = outcome.ok (res, s1) →
      s1.bio_count = s.bio_count + ((s1.bio_list.length : Int) - (s.bio_list.length : Int)) ∧
      s.bio_list.length ≤ s1.bio_list.length ∧
      (res = true → s.processed < r.count → s.bio_list.length < s1.bio_list.length) := by
  intro k
  induction k with
  | zero =>
    intro s s1 res h
    simp only [build_bios] at h
    split at h
    · simp at h
    · rename_i hlt
      simp only [outcome.ok.injEq, Prod.mk.injEq] at h
      obtain ⟨_, hs⟩ := h
      subst hs
      exact ⟨by omega, le_refl _, fun _ h2 => absurd h2 hlt⟩
  | succ k ih =>
    intro s s1 res h
    simp only [build_bios] at h
    split at h
    · split at h
      · simp only [outcome.ok.injEq, Prod.mk.injEq] at h
        obtain ⟨hres, hs⟩ := h
        subst hs
        exact ⟨by omega, le_refl _, fun h1 _ => by rw [← hres] at h1; simp at h1⟩
      · split at h
        · simp at h
        · simp at h
        · rename_i offset idx bvecs hadd
          obtain ⟨h1, h2, _⟩ := ih _ s1 res h
          simp only [List.length_append, List.length_singleton] at h1 h2
          refine ⟨?_, by omega, fun _ _ => by omega⟩
          rw [h1]
          push_cast
          omega
    · rename_i hlt
      simp only [outcome.ok.injEq, Prod.mk.injEq] at h
      obtain ⟨_, hs⟩ := h
      subst hs
      exact ⟨by omega, le_refl _, fun _ h2 => absurd h2 hlt⟩

/-- One completion keeps the kind of the `diff_io` and takes one from
`bio_count`. -/
theorem diff_io_endio_is_sync (d : diff_io) (s : Nat) :
    (diff_io_endio d s).1.is_sync_io = d.is_sync_io ∧
    (diff_io_endio d s).1.bio_count = d.bio_count - 1 := by
  unfold diff_io_endio
  dsimp only
  split <;> split <;> exact ⟨rfl, rfl⟩

/-- The error left by a sequence of completions. -/
theorem diff_io_endio_all_error (sts : List Nat) :
    ∀ d : diff_io, (diff_io_endio_all d sts).1.error =
      if ∃ s, s ∈ sts ∧ s ≠ BLK_STS_OK then - EIO else d.error := by
  induction sts with
  | nil =>
    intro d
    simp [diff_io_endio_all]
  | cons s rest ih =>
    intro d
    simp only [diff_io_endio_all]
    rw [ih]
    have he : (diff_io_endio d s).1.error = if s ≠ BLK_STS_OK then - EIO else d.error := by
      unfold diff_io_endio
      dsimp only
      split <;> split <;> simp_all
    rw [he]
    by_cases hs : s ≠ BLK_STS_OK
    · have h1 : ∃ x, x ∈ s :: rest ∧ x ≠ BLK_STS_OK := ⟨s, List.mem_cons_self _ _, hs⟩
      rw [if_pos h1, if_pos hs]
      split <;> rfl
    · rw [if_neg hs]
      by_cases hr : ∃ x, x ∈ rest ∧ x ≠ BLK_STS_OK
      · obtain ⟨x, hx, hxne⟩ := hr
        rw [if_pos ⟨x, hx, hxne⟩, if_pos ⟨x, List.mem_cons_of_mem _ hx, hxne⟩]
      · have h2 : ¬ ∃ x, x ∈ s :: rest ∧ x ≠ BLK_STS_OK := by
          rintro ⟨x, hx, hxne⟩
          rcases List.mem_cons.mp hx with hxs | hxr
          · rw [hxs] at hxne
            exact hs hxne
          · exact hr ⟨x, hxr, hxne⟩
        rw [if_neg hr, if_neg h2]

/-- C13: for a `diff_io` whose `error` is 0, as `diff_io_new` leaves it, and
any sequence of completions handled by `diff_io_endio`, `error` is `-EIO`
after the last one if some bio completed with a status other than
`BLK_STS_OK`, and 0 otherwise; the same completions in any other order give
the same `error`; and a completion never takes `error` back from `-EIO`. -/
theorem diff_io_endio_error_sticky (d : diff_io) (sts : List Nat) (h0 : d.error = 0) :
    (diff_io_endio_all d sts).1.error =
      (if ∃ s, s ∈ sts ∧ s ≠ BLK_STS_OK then - EIO else 0) ∧
    (∀ sts1, sts1.Perm sts →
      (diff_io_endio_all d sts1).1.error = (diff_io_endio_all d sts).1.error) ∧
    (∀ (d1 : diff_io) (s : Nat), d1.error = - EIO → (diff_io_endio d1 s).1.error = - EIO) ∧
    (∀ is_write, ∀ d0, diff_io_new true is_write = some d0 → d0.error = 0) := by
  refine ⟨?_, ?_, ?_, ?_⟩
  · rw [diff_io_endio_all_error, h0]
  · intro sts1 hp
    rw [diff_io_endio_all_error, diff_io_endio_all_error]
    have hiff : (∃ s, s ∈ sts1 ∧ s ≠ BLK_STS_OK) ↔ (∃ s, s ∈ sts ∧ s ≠ BLK_STS_OK) :=
      ⟨fun ⟨s, hs, hne⟩ => ⟨s, hp.mem_iff.mp hs, hne⟩,
        fun ⟨s, hs, hne⟩ => ⟨s, hp.mem_iff.mpr hs, hne⟩⟩
    by_cases hc : ∃ s, s ∈ sts ∧ s ≠ BLK_STS_OK
    · rw [if_pos hc, if_pos (hiff.mpr hc)]
    · rw [if_neg hc, if_neg (fun h => hc (hiff.mp h))]
  · intro d1 s h1
    unfold diff_io_endio
    dsimp only
    split <;> split <;> simp_all
  · intro is_write d0 h
    simp only [diff_io_new, Bool.not_true, Bool.false_eq_true, if_false, Option.some.injEq] at h
    rw [← h]

/-- Witness of C13: a fresh asynchronous `diff_io` and three completions, the
second one failed. -/
theorem diff_io_endio_error_sticky_witness :
    (diff_io_endio_all async_io [0, 10, 0]).1.error =
      (if ∃ s, s ∈ [0, 10, 0] ∧ s ≠ BLK_STS_OK then - EIO else 0) ∧
    (diff_io_endio_all async_io [0, 10, 0]).1.error = - EIO :=
  ⟨(diff_io_endio_error_sticky async_io [0, 10, 0] (by decide)).1, by decide⟩

/-- The work scheduled by a sequence of completions of an asynchronous
`diff_io`. -/
theorem diff_io_endio_all_work (sts : List Nat) :
    ∀ d : diff_io, d.is_sync_io = false →
      ((sts.length : Int) < d.bio_count →
        (diff_io_endio_all d sts).2.count io_event.queue_work = 0) ∧
      (d.bio_count = (sts.length : Int) → sts ≠ [] →
        (diff_io_endio_all d sts).2.count io_event.queue_work = 1) := by
  induction sts with
  | nil =>
    intro d _
    exact ⟨fun _ => by simp [diff_io_endio_all], fun _ h => absurd rfl h⟩
  | cons s rest ih =>
    intro d hd
    obtain ⟨hsync, hcnt⟩ := diff_io_endio_is_sync d s
    obtain ⟨ih1, ih2⟩ := ih (diff_io_endio d s).1 (hsync.trans hd)
    have hev : (diff_io_endio d s).2 =
        if d.bio_count - 1 = 0 then [io_event.queue_work, io_event.bio_put]
        else [io_event.bio_put] := by
      unfold diff_io_endio
      dsimp only
      split <;> split <;> simp_all
    simp only [List.length_cons, Nat.cast_add, Nat.cast_one] at *
    refine ⟨?_, ?_⟩
    · intro hlt
      have hne : ¬ d.bio_count - 1 = 0 := by omega
      simp only [diff_io_endio_all, List.count_append, hev, if_neg hne]
      rw [ih1 (by omega)]
      decide
    · intro heq _
      simp only [diff_io_endio_all, List.count_append, hev]
      by_cases hrest : rest = []
      · subst hrest
        have h0 : d.bio_count - 1 = 0 := by
          simp only [List.length_nil, Nat.cast_zero] at heq
          omega
        rw [if_pos h0]
        simp [diff_io_endio_all]
      · have hpos : 0 < rest.length := List.length_pos.mpr hrest
        have hne : ¬ d.bio_count - 1 = 0 := by omega
        rw [if_neg hne, ih2 (by omega) hrest]
        decide

/-- C14, as stated, fails: for the empty region, which passes the checks,
the asynchronous `diff_io_do` returns 0 having submitted no bio; no
completion will follow, and the callback is scheduled never, not once. -/
theorem diff_io_do_empty_region_no_callback :
    diff_io_do alloc_ok async_io empty_region one_page_buffer false =
      outcome.ok (0, async_io, []) ∧
    (diff_io_endio_all async_io []).2.count io_event.queue_work = 0 := by
  decide

/-- Setting the three low bits rounds up to the last sector of the page. -/
theorem lor_seven (y : Nat) : y ||| 7 = y / 8 * 8 + 7 := by
  have h1 : y = 2 ^ 3 * (y / 8) + y % 8 := by
    have := Nat.div_add_mod y 8
    omega
  have hr : y % 8 < 2 ^ 3 := by
    have := Nat.mod_lt y (show 0 < 8 by decide)
    omega
  have h2 : 2 ^ 3 * (y / 8) + y % 8 = 2 ^ 3 * (y / 8) ||| y % 8 := Nat.mul_add_lt_is_or hr _
  have h3 : y % 8 ||| 7 = 7 := by
    have : y % 8 < 8 := Nat.mod_lt y (by decide)
    interval_cases (y % 8) <;> rfl
  have h4 : 2 ^ 3 * (y / 8) + 7 = 2 ^ 3 * (y / 8) ||| 7 :=
    Nat.mul_add_lt_is_or (by decide) _
  calc y ||| 7 = (2 ^ 3 * (y / 8) + y % 8) ||| 7 := by rw [← h1]
    _ = (2 ^ 3 * (y / 8) ||| y % 8) ||| 7 := by rw [h2]
    _ = 2 ^ 3 * (y / 8) ||| (y % 8 ||| 7) := Nat.lor_assoc _ _ _
    _ = 2 ^ 3 * (y / 8) ||| 7 := by rw [h3]
    _ = 2 ^ 3 * (y / 8) + 7 := h4.symm
    _ = y / 8 * 8 + 7 := by omega

/-- Up to 65535 pages the cut of `calc_page_count` to 16 bits loses nothing:
the result is the number of pages started. -/
theorem calc_page_count_exact (x : Nat) (hx : x ≤ 65535 * 8) :
    calc_page_count x = (x + 7) / 8 := by
  unfold calc_page_count round_up
  rw [PAGE_SECTORS_eq]
  rcases Nat.eq_zero_or_pos x with h0 | h0
  · subst h0
    decide
  · have h1 : (2 ^ 64 - 1 + x) % 2 ^ 64 = x - 1 := by omega
    rw [h1]
    have h2 : (8 - 1 : Nat) = 7 := rfl
    rw [h2, lor_seven]
    omega

/-- When the inner loop ends normally it has added one page for every
started page of the sectors that were left. -/
theorem add_pages_length (pages : List Nat) (portion : Nat) :
    ∀ (fuel offset idx : Nat) (bvecs : List (Nat × Nat)) (off idx1 : Nat)
      (bv : List (Nat × Nat)),
      add_pages pages portion fuel offset idx bvecs = outcome.ok (off, idx1, bv) →
      bv.length = bvecs.length + (portion - offset + 7) / 8 := by
  intro fuel
  induction fuel with
  | zero =>
    intro offset idx bvecs off idx1 bv h
    simp only [add_pages] at h
    split at h
    · simp at h
    · rename_i hlt
      simp only [outcome.ok.injEq, Prod.mk.injEq] at h
      obtain ⟨_, _, hbv⟩ := h
      subst hbv
      have h0 : (portion - offset + 7) / 8 = 0 := by omega
      omega
  | succ k ih =>
    intro offset idx bvecs off idx1 bv h
    simp only [add_pages] at h
    split at h
    · rename_i hlt
      split at h
      · simp at h
      · have hl := ih _ _ _ _ _ _ h
        rw [hl, List.length_append, List.length_singleton, PAGE_SECTORS_eq]
        have hstep : (portion - offset + 7) / 8 =
            1 + (portion - (offset + min 8 (portion - offset)) + 7) / 8 := by omega
        omega
    · rename_i hlt
      simp only [outcome.ok.injEq, Prod.mk.injEq] at h
      obtain ⟨_, _, hbv⟩ := h
      subst hbv
      have h0 : (portion - offset + 7) / 8 = 0 := by omega
      omega

/-- The size chosen by one pass of the outer loop for `portion0` sectors left,
at most 65535 pages: the pages that its inner loop adds are as many as the
vectors of the bio. -/
theorem bio_size_fits (portion0 : Nat) (hp : portion0 ≤ 65535 * 8) :
    ((if decide (calc_page_count portion0 > bio_max_segs (calc_page_count portion0)) = true
        then (if decide (calc_page_count portion0 > bio_max_segs (calc_page_count portion0)) = true
          then bio_max_segs (calc_page_count portion0) % 2 ^ 16
          else calc_page_count portion0) * PAGE_SECTORS
        else portion0) + 7) / 8 ≤
      (if decide (calc_page_count portion0 > bio_max_segs (calc_page_count portion0)) = true
        then bio_max_segs (calc_page_count portion0) % 2 ^ 16
        else calc_page_count portion0) := by
  rw [calc_page_count_exact portion0 hp, PAGE_SECTORS_eq]
  unfold bio_max_segs BIO_MAX_PAGES
  by_cases hc : (portion0 + 7) / 8 > min ((portion0 + 7) / 8) 256
  · simp only [hc, decide_True, if_true]
    omega
  · simp only [hc, decide_False, Bool.false_eq_true, if_false]
    omega

/-- For a region of at most 65535 pages no bio built by the outer loop holds
more pages than the vectors it was allocated with. -/
theorem build_bios_fits (alloc : Bool → Nat → Bool) (is_nowait : Bool) (r : diff_region)
    (b : diff_buffer) (hsmall : r.count ≤ 65535 * 8) :
    ∀ (k : Nat) (s s1 : build_state) (res : Bool),
      build_bios alloc is_nowait r b k s = outcome.ok (res, s1) →
      (∀ bio, bio ∈ s.bio_list → bio.bvecs.length ≤ bio.nr_iovecs) →
      ∀ bio, bio ∈ s1.bio_list → bio.bvecs.length ≤ bio.nr_iovecs := by
  intro k
  induction k with
  | zero =>
    intro s s1 res h hs
    simp only [build_bios] at h
    split at h
    · simp at h
    · simp only [outcome.ok.injEq, Prod.mk.injEq] at h
      obtain ⟨_, hs1⟩ := h
      subst hs1
      exact hs
  | succ k ih =>
    intro s s1 res h hs
    simp only [build_bios] at h
    split at h
    · split at h
      · simp only [outcome.ok.injEq, Prod.mk.injEq] at h
        obtain ⟨_, hs1⟩ := h
        subst hs1
        exact hs
      · split at h
        · simp at h
        · simp at h
        · rename_i offset idx bvecs hadd
          refine ih _ s1 res h ?_
          intro bio hbio
          simp only [List.mem_append, List.mem_singleton] at hbio
          rcases hbio with hold | hnew
          · exact hs bio hold
          · subst hnew
            have hlen := add_pages_length _ _ _ _ _ _ _ _ _ hadd
            simp only [List.length_nil, Nat.sub_zero, Nat.zero_add] at hlen
            show bvecs.length ≤ _
            rw [hlen]
            exact bio_size_fits (r.count - s.processed) (by omega)
    · simp only [outcome.ok.injEq, Prod.mk.injEq] at h
      obtain ⟨_, hs1⟩ := h
      subst hs1
      exact hs

/-- C14, amended: for an asynchronous `diff_io` with no bio outstanding and a
region of at least one sector and at most 65535 pages, when `diff_io_do`
returns 0 it has submitted at least one bio, no bio holds more pages than the
vectors it was allocated with, and for every sequence of completions of
these bios the callback is scheduled (`queue_work`) exactly once, by the last
completion: after any smaller number of completions it has not been
scheduled. -/
theorem diff_io_do_async_callback_once (alloc : Bool → Nat → Bool) (is_nowait : Bool)
    (d d1 : diff_io) (r : diff_region) (b : diff_buffer) (bios : List diff_bio)
    (hasync : d.is_sync_io = false) (hfresh : d.bio_count = 0) (hcount : 0 < r.count)
    (hsmall : r.count ≤ 65535 * PAGE_SECTORS)
    (hdo : diff_io_do alloc d r b is_nowait = outcome.ok (0, d1, bios)) :
    bios ≠ [] ∧
    (∀ bio, bio ∈ bios → bio.bvecs.length ≤ bio.nr_iovecs) ∧
    ∀ sts : List Nat, sts.length = bios.length →
      (diff_io_endio_all d1 sts).2.count io_event.queue_work = 1 ∧
      ∀ n, n < sts.length →
        (diff_io_endio_all d1 (sts.take n)).2.count io_event.queue_work = 0 := by
  rw [PAGE_SECTORS_eq] at hsmall
  unfold diff_io_do at hdo
  split at hdo
  · simp only [outcome.ok.injEq, Prod.mk.injEq] at hdo
    exact absurd hdo.1 (by decide)
  · split at hdo
    · simp only [outcome.ok.injEq, Prod.mk.injEq] at hdo
      exact absurd hdo.1 (by decide)
    · split at hdo
      · simp at hdo
      · simp at hdo
      · rename_i s hb
        simp only [outcome.ok.injEq, Prod.mk.injEq] at hdo
        obtain ⟨_, hd1, hbios⟩ := hdo
        subst hd1 hbios
        obtain ⟨h1, _, h3⟩ := build_bios_counts alloc is_nowait r b r.count _ s true hb
        have hfit := build_bios_fits alloc is_nowait r b hsmall r.count _ s true hb
          (fun bio hbio => by simp at hbio)
        have hlen := h3 rfl hcount
        simp only [List.length_nil, hfresh, Nat.cast_zero, sub_zero, zero_add] at h1 hlen
        refine ⟨List.ne_nil_of_length_pos hlen, hfit, ?_⟩
        intro sts hsts
        have hwork := diff_io_endio_all_work sts { d with bio_count := s.bio_count } hasync
        have hne : sts ≠ [] := List.ne_nil_of_length_pos (by omega)
        refine ⟨hwork.2 (by simp only [h1, hsts]) hne, ?_⟩
        intro n hn
        have hw := diff_io_endio_all_work (sts.take n) { d with bio_count := s.bio_count } hasync
        refine hw.1 ?_
        simp only [h1, List.length_take]
        have : min n sts.length = n := by omega
        rw [this]
        omega
      · simp only [outcome.ok.injEq, Prod.mk.injEq] at hdo
        exact absurd hdo.1 (by decide)

/-- Witness of C14 amended: a region of 257 pages and a buffer of 257 pages;
`diff_io_do` builds two bios, of 256 pages and of one page, and the callback
is scheduled by the second of their two completions. -/
theorem diff_io_do_async_callback_once_witness :
    two_bios.length = 2 ∧
    two_bios ≠ [] ∧
    (∀ bio, bio ∈ two_bios → bio.bvecs.length ≤ bio.nr_iovecs) ∧
    ∀ sts : List Nat, sts.length = two_bios.length →
      (diff_io_endio_all { async_io with bio_count := 2 } sts).2.count io_event.queue_work = 1 ∧
      ∀ n, n < sts.length →
        (diff_io_endio_all { async_io with bio_count := 2 } (sts.take n)).2.count
          io_event.queue_work = 0 :=
  ⟨rfl,
    diff_io_do_async_callback_once alloc_ok false async_io { async_io with bio_count := 2 }
      two_bio_region two_bio_buffer two_bios
      (by decide) (by decide) (by decide) (by decide)
      (by set_option maxRecDepth 100000 in decide)⟩

/-- One pass of the outer loop that needs no clipping, whose inner loop ends
normally and after which nothing is left to process. -/
theorem build_bios_single_pass (alloc : Bool → Nat → Bool) (is_nowait : Bool)
    (r : diff_region) (b : diff_buffer) (k : Nat) (s : build_state)
    (off idx : Nat) (bv : List (Nat × Nat))
    (hlt : s.processed < r.count)
    (hal : alloc is_nowait s.bio_list.length = true)
    (hclip : ¬ calc_page_count (r.count - s.processed) >
      bio_max_segs (calc_page_count (r.count - s.processed)))
    (hadd : add_pages b.pages (r.count - s.processed) (r.count - s.processed) 0
      s.page_idx [] = outcome.ok (off, idx, bv))
    (hdone : ¬ (s.processed + off) % 2 ^ 64 < r.count) :
    build_bios alloc is_nowait r b (k + 1) s =
      outcome.ok (true,
        { processed := (s.processed + off) % 2 ^ 64
          page_idx := idx
          bio_list := s.bio_list ++
            [{ bi_sector := (r.sector + s.processed) % 2 ^ 64
               nr_iovecs := calc_page_count (r.count - s.processed)
               bvecs := bv }]
          bio_count := s.bio_count + 1 }) := by
  rw [build_bios, if_pos hlt]
  simp only [decide_eq_false hclip, Bool.false_eq_true, if_false, hal, Bool.not_true, hadd]
  rw [build_bios_finished]
  exact hdone

/-- C12, the code at the failing input: the region is page aligned and has
65537 pages, and the buffer has 65537 pages too.  The page count, cut to 16
bits, is 1, so the checks pass and no clipping to `BIO_MAX_PAGES` takes
place: `diff_io_do` returns 0 having built a single bio, allocated with one
vector, to which it added all 65537 pages. -/
theorem diff_io_do_builds_oversized_bio :
    calc_page_count long_region.count = 1 ∧
    ∃ d1 bio, diff_io_do alloc_ok async_io long_region long_buffer false =
        outcome.ok (0, d1, [bio]) ∧
      bio.nr_iovecs = 1 ∧ bio.bvecs.length = 65537 ∧ BIO_MAX_PAGES < bio.bvecs.length := by
  refine ⟨by decide, ?_⟩
  have hal : check_page_aligned long_region.sector = true := by decide
  have hpc : ¬ calc_page_count long_region.count > long_buffer.page_count := by decide
  have hlen : long_buffer.pages.length = 65537 := by
    simp only [long_buffer, List.length_range]
  obtain ⟨bv, hrun, hbv⟩ := add_pages_run long_buffer.pages 524296 524296 0 0 []
    (by omega) (by rw [hlen])
  have hbuild := build_bios_single_pass alloc_ok false long_region long_buffer 524295
    { processed := 0, page_idx := 0, bio_list := [], bio_count := async_io.bio_count }
    (max 0 524296) (0 + (524296 - 0 + 7) / 8) ([] ++ bv)
    (by decide) rfl (by decide) hrun (by decide)
  refine ⟨{ async_io with bio_count := async_io.bio_count + 1 },
    { bi_sector := 0, nr_iovecs := 1, bvecs := bv }, ?_, rfl, hbv, ?_⟩
  · unfold diff_io_do
    rw [hal]
    simp only [Bool.not_true, Bool.false_eq_true, if_false, hpc]
    have hc : long_region.count = 524295 + 1 := by decide
    rw [hc, hbuild]
    rfl
  · rw [hbv]
    decide

/-! ## diff_io.c: the page walk -/

/-- C21, the code at the failing input: the region is page aligned and has
65536 pages, and the buffer has 65536 pages, so the region passes the
validation, also when the page count is taken without the cut to 16 bits.
The loop ends with the whole region processed and 65536 pages consumed, but
it has built one bio, allocated with `nr_iovecs = 0`, and added all 65536
pages to it. -/
theorem diff_io_do_page_walk_overfills_bio :
    check_page_aligned huge_region.sector = true ∧
    (huge_region.count + (PAGE_SECTORS - 1)) / PAGE_SECTORS ≤ huge_buffer.page_count ∧
    ∃ d1 bio, diff_io_do alloc_ok async_io huge_region huge_buffer false =
        outcome.ok (0, d1, [bio]) ∧
      bio.nr_iovecs = 0 ∧ bio.bvecs.length = 65536 ∧ bio.nr_iovecs < bio.bvecs.length := by
  refine ⟨by decide, by decide, ?_⟩
  have hal : check_page_aligned huge_region.sector = true := by decide
  have hpc : ¬ calc_page_count huge_region.count > huge_buffer.page_count := by decide
  have hlen : huge_buffer.pages.length = 65536 := by
    simp only [huge_buffer, List.length_range]
  obtain ⟨bv, hrun, hbv⟩ := add_pages_run huge_buffer.pages 524288 524288 0 0 []
    (by omega) (by rw [hlen])
  have hbuild := build_bios_single_pass alloc_ok false huge_region huge_buffer 524287
    { processed := 0, page_idx := 0, bio_list := [], bio_count := async_io.bio_count }
    (max 0 524288) (0 + (524288 - 0 + 7) / 8) ([] ++ bv)
    (by decide) rfl (by decide) hrun (by decide)
  refine ⟨{ async_io with bio_count := async_io.bio_count + 1 },
    { bi_sector := 0, nr_iovecs := 0, bvecs := bv }, ?_, rfl, hbv, ?_⟩
  · unfold diff_io_do
    rw [hal]
    simp only [Bool.not_true, Bool.false_eq_true, if_false, hpc]
    have hc : huge_region.count = 524287 + 1 := by decide
    rw [hc, hbuild]
    rfl
  · show 0 < bv.length
    rw [hbv]
    decide

/-! ## snapdata_collect.c -/

/-- C22, the code at the failing input: bit 0 is set, bits 1 and 2 are clear,
and `rangelist_add` fails.  The call made at index 1 for the run of bit 0
fails, and alone it would make the function return `-ENOMEM`, as it does for
`length = 2`; for `length = 3` the pass for index 2 stores the result of
`page_array_bit_get` over it, and the function returns `SUCCESS` with
nothing appended, where the run is one range, as the run with a working
`rangelist_add` shows. -/
theorem page_array_convert2rangelist_loses_add_error :
    page_array_convert2rangelist bits_first add_fails [] 10 3 = (SUCCESS, []) ∧
    page_array_convert2rangelist bits_first add_fails [] 10 2 = (-ENOMEM, []) ∧
    page_array_convert2rangelist bits_first add_ok [] 10 3 =
      (SUCCESS, [{ ofs := 10, cnt := 1 }]) := by
  decide

/-! ## snapshot.c: the list of snapshots -/

/-- C23, the code at the failing input: two `snapshot_new` in a row, both
successful, with the identifiers 3 and 7.  After the first the list holds the
first snapshot; after the second it holds the second and nothing else.
`snapshot_get_by_id` then finds the second and not the first, and
`snapshot_done` releases the second and leaves the first allocated. -/
theorem snapshot_new_forgets_earlier_snapshots :
    snapshot_new env_ok empty_state 1 = (ptr_or_err.ptr 0, one_created) ∧
    snapshot_new env_ok one_created 1 = (ptr_or_err.ptr 1, two_created) ∧
    (heap_get two_created.snapshot_heap 0).map snapshot.id = some 3 ∧
    (heap_get two_created.snapshot_heap 1).map snapshot.id = some 7 ∧
    one_created.snapshots = [0] ∧
    two_created.snapshots = [1] ∧
    snapshot_get_by_id two_created 3 = some (none, two_created) ∧
    (snapshot_get_by_id two_created 7).map Prod.fst = some (some 1) ∧
    (snapshot_done env_ok two_created).map State.snapshots = some [] ∧
    (snapshot_done env_ok two_created).map (fun st => heap_get st.snapshot_heap 1) =
      some none ∧
    (snapshot_done env_ok two_created).map (fun st => (heap_get st.snapshot_heap 0).isSome) =
      some true := by
  decide

end Blksnap
